import Mathlib

/-!
Ultraviolet: connection limiters, worker manager, backend configuration.

A shallow embedding of `module/conn_limiter.go`, `worker/worker_manager.go` and
the conversion of `config/file.go`, with the connection-state agent and the
status cache of `module`, whose sources are absent, modelled from the
specification.

Modelling conventions.

* A `time.Time` is an integer number of nanoseconds counted from Go's zero
  `time.Time`; a `time.Duration` is an integer number of nanoseconds.
* `time.Since t` is `now - t`, where `now` is the clock reading of the call.
  Go saturates the difference at the bounds of `int64`; the limiters only
  compare it (with `>=`) against a `time.Duration`, and for every duration
  above the least `int64` the saturated and the exact difference compare
  alike, so the exact difference is used.
* One call of `Allow` reads the clock several times; the model hands the call
  a single reading `now`, used for each of them.
* Go maps are total functions into `Option`.
* A call that touches the outside world (a dial, an exchange with a backend,
  the file system, the key generator) takes the outcome of that contact as an
  argument.
* Times, durations and Go `int` fields all have type `Int`.
-/

namespace Ultraviolet

set_option maxRecDepth 100000

/-! ## Int -/

/-- The constant `time.Second`. -/
def Second : Int := 1000000000

/-- The call `time.Since(t)` made when the clock reads `now`. -/
def Since (now t : Int) : Int := now - t

/-- The zero value of `time.Time`, held by a field that was never assigned and
returned by a map lookup that misses. -/
def zeroTime : Int := 0

/-! ## Go maps -/

/-- The assignment `m[k] = v`. -/
def mapSet {β : Type} (m : String → Option β) (k : String) (v : β) : String → Option β :=
  fun k' => if k' = k then some v else m k'

/-- The call `delete(m, k)`. -/
def mapDelete {β : Type} (m : String → Option β) (k : String) : String → Option β :=
  fun k' => if k' = k then none else m k'

/-- The map built by `make(map[string]T)`. -/
def mapEmpty {β : Type} : String → Option β := fun _ => none

/-! ## Requests -/

/-- The request kinds of `mc`: `mc.Status`, `mc.Login`, and anything else. -/
inductive RequestType where
  | Unknown
  | Status
  | Login
  deriving DecidableEq

/-- The fields of `core.RequestData` that the limiters read. `Addr` holds
`req.Addr.String()`. -/
structure RequestData where
  ReqType : RequestType
  Addr : String
  Username : String

/-- The call `strings.Split(s, sep)` for a one-character separator, on the
characters of `s`: the pieces of `s` between the occurrences of `sep`. -/
def Split (sep : Char) : List Char → List (List Char)
  | [] => [[]]
  | c :: cs =>
    if c = sep then [] :: Split sep cs
    else
      match Split sep cs with
      | [] => [[c]]
      | p :: ps => (c :: p) :: ps

/-- `FilterIpFromAddr`: the piece of `addr.String()` before the first colon
(`parts[0]`). -/
def FilterIpFromAddr (addr : String) : String :=
  match Split ':' addr.data with
  | [] => ""
  | p :: _ => String.mk p

/-! ## The absolute limiter -/

/-- The struct `absoluteConnlimiter`. -/
structure absoluteConnlimiter where
  rateCounter : Int
  rateStartTime : Int
  rateLimit : Int
  rateCooldown : Int
  limitStatus : Bool

/-- `NewAbsConnLimiter`: counter and window start keep their zero values. -/
def NewAbsConnLimiter (ratelimit : Int) (cooldown : Int) (limitStatus : Bool) :
    absoluteConnlimiter :=
  { rateCounter := 0
    rateStartTime := zeroTime
    rateLimit := ratelimit
    rateCooldown := cooldown
    limitStatus := limitStatus }

/-- `absoluteConnlimiter.Allow`, called when the clock reads `now`: the answer
and the limiter afterwards. The increment cannot overflow, the counter being
below `rateLimit`. -/
def absoluteConnlimiter.Allow (r : absoluteConnlimiter) (now : Int) (_req : RequestData) :
    Bool × absoluteConnlimiter :=
  let r1 : absoluteConnlimiter :=
    if Since now r.rateStartTime ≥ r.rateCooldown then
      { r with rateCounter := 0, rateStartTime := now }
    else r
  if !r1.limitStatus then (true, r1)
  else if r1.rateCounter < r1.rateLimit then
    (true, { r1 with rateCounter := r1.rateCounter + 1 })
  else (false, r1)

/-- The answers of successive `Allow` calls, one per timed request. -/
def absoluteConnlimiter.run (r : absoluteConnlimiter) : List (Int × RequestData) → List Bool
  | [] => []
  | e :: evs => (r.Allow e.1 e.2).1 :: absoluteConnlimiter.run (r.Allow e.1 e.2).2 evs

/-- The number of Login requests among `evs` that were answered `true` in
`res` and arrived at a time in `[a, a + d)`. -/
def allowedLoginsIn (a : Int) (d : Int) :
    List (Int × RequestData) → List Bool → Nat
  | e :: evs, b :: res =>
    (if b = true ∧ e.2.ReqType = RequestType.Login ∧ a ≤ e.1 ∧ e.1 < a + d then 1 else 0)
      + allowedLoginsIn a d evs res
  | _, _ => 0

/-- A Login request from `addr` under `name`. -/
def login (addr name : String) : RequestData :=
  { ReqType := RequestType.Login, Addr := addr, Username := name }

/-- A clock reading used in the examples: 2024-01-01T00:00:00Z. -/
def clock0 : Int := 63839664000 * Second

/-- Two Logins one second apart. -/
def twoLogins : List (Int × RequestData) :=
  [(clock0, login "10.0.0.1:5000" "bob"), (clock0 + Second, login "10.0.0.1:5000" "bob")]

/-- Four Logins: two at the end of one window of ten seconds, two at the
start of the next. -/
def burstLogins : List (Int × RequestData) :=
  [(clock0, login "10.0.0.1:5000" "bob"), (clock0 + 9 * Second, login "10.0.0.1:5000" "bob"),
   (clock0 + 10 * Second, login "10.0.0.1:5000" "bob"),
   (clock0 + 11 * Second, login "10.0.0.1:5000" "bob")]

/-! ## The bot-filter limiter -/

/-- An `mc.Packet`: its id and its data bytes. -/
structure Packet where
  ID : Nat
  Data : List Nat
  deriving DecidableEq

/-- The struct `botFilterConnLimiter`. -/
structure botFilterConnLimiter where
  limiting : Bool
  unverifyCooldown : Int
  rateCounter : Int
  rateStartTime : Int
  lastTimeAboveLimit : Int
  rateLimit : Int
  rateCooldown : Int
  disconnPacket : Packet
  listClearTime : Int
  blackList : String → Option Int
  namesList : String → Option String

/-- `NewBotFilterConnLimiter`, called when the clock reads `now`. -/
def NewBotFilterConnLimiter (now : Int) (ratelimit : Int) (cooldown clearTime unverify : Int)
    (disconnPk : Packet) : botFilterConnLimiter :=
  { limiting := false
    unverifyCooldown := unverify
    rateCounter := 0
    rateStartTime := zeroTime
    lastTimeAboveLimit := now
    rateLimit := ratelimit
    rateCooldown := cooldown
    disconnPacket := disconnPk
    listClearTime := clearTime
    blackList := mapEmpty
    namesList := mapEmpty }

/-- A Go `int` after an arithmetic step: the value wrapped into 64 bits. -/
def wrapInt64 (x : Int) : Int := (x + 2 ^ 63) % 2 ^ 64 - 2 ^ 63

/-- Lines 95-104 of `botFilterConnLimiter.Allow`: the window rollover. -/
def botFilterConnLimiter.rollWindow (l : botFilterConnLimiter) (now : Int) :
    botFilterConnLimiter :=
  if Since now l.rateStartTime ≥ l.rateCooldown then
    let l1 : botFilterConnLimiter :=
      if l.rateCounter > l.rateLimit then { l with lastTimeAboveLimit := l.rateStartTime }
      else l
    let l2 : botFilterConnLimiter :=
      if l1.limiting && decide (Since now l1.lastTimeAboveLimit ≥ l1.unverifyCooldown) then
        { l1 with limiting := false }
      else l1
    { l2 with rateCounter := 0, rateStartTime := now }
  else l

/-- Lines 115-128 of `botFilterConnLimiter.Allow`: the limiting flag and the
username check, for a request whose address gave `ip`. -/
def botFilterConnLimiter.verify (l : botFilterConnLimiter) (now : Int) (req : RequestData)
    (ip : String) : Bool × botFilterConnLimiter :=
  let l1 : botFilterConnLimiter :=
    { l with limiting := l.limiting || decide (l.rateCounter > l.rateLimit) }
  if l1.limiting then
    match l1.namesList ip with
    | none => (false, { l1 with namesList := mapSet l1.namesList ip req.Username })
    | some username =>
      if username ≠ req.Username then
        (false, { l1 with blackList := mapSet l1.blackList ip now })
      else (true, l1)
  else (true, l1)

/-- `botFilterConnLimiter.Allow`, called when the clock reads `now`: the
answer and the limiter afterwards. -/
def botFilterConnLimiter.Allow (l : botFilterConnLimiter) (now : Int) (req : RequestData) :
    Bool × botFilterConnLimiter :=
  if req.ReqType = RequestType.Status then (true, l)
  else
    let l1 := l.rollWindow now
    let l2 : botFilterConnLimiter := { l1 with rateCounter := wrapInt64 (l1.rateCounter + 1) }
    let ip := FilterIpFromAddr req.Addr
    let blockTime := (l2.blackList ip).getD zeroTime
    let ok := (l2.blackList ip).isSome
    if Since now blockTime ≥ l2.listClearTime then
      botFilterConnLimiter.verify { l2 with blackList := mapDelete l2.blackList ip } now req ip
    else if ok then (false, l2)
    else botFilterConnLimiter.verify l2 now req ip

/-- The answers of successive `Allow` calls and the limiter after them. -/
def botFilterConnLimiter.run (l : botFilterConnLimiter) :
    List (Int × RequestData) → List Bool × botFilterConnLimiter
  | [] => ([], l)
  | e :: evs =>
    ((l.Allow e.1 e.2).1 :: (botFilterConnLimiter.run (l.Allow e.1 e.2).2 evs).1,
      (botFilterConnLimiter.run (l.Allow e.1 e.2).2 evs).2)

/-- The limiting flag that line 115 computes for a Login at `now`: the flag
left by the window rollover, or the incremented counter above the limit. -/
def botFilterConnLimiter.limitingAfterUpdate (l : botFilterConnLimiter) (now : Int) : Bool :=
  (l.rollWindow now).limiting ||
    decide (wrapInt64 ((l.rollWindow now).rateCounter + 1) > (l.rollWindow now).rateLimit)

/-- The blacklist holds an entry for `ip` that has not expired at `now`. -/
def botFilterConnLimiter.blacklisted (l : botFilterConnLimiter) (now : Int) (ip : String) : Bool :=
  match l.blackList ip with
  | none => false
  | some t => decide (Since now t < l.listClearTime)

/-- The constant `time.Millisecond`. -/
def Millisecond : Int := 1000000

/-- The limiter of scenario S5, built when the clock reads `clock0`: limit 2,
window of one second, blacklist entries kept fifteen minutes, unverify
cooldown of ten seconds. -/
def s5Limiter : botFilterConnLimiter :=
  NewBotFilterConnLimiter clock0 2 Second (15 * 60 * Second) (10 * Second) ⟨0, []⟩

/-- Three Logins from (10.0.0.1, "bob") within one second. -/
def bobLogins (t : Int) : List (Int × RequestData) :=
  [(t, login "10.0.0.1:5000" "bob"), (t + 300 * Millisecond, login "10.0.0.1:5000" "bob"),
   (t + 600 * Millisecond, login "10.0.0.1:5000" "bob")]

/-- The Logins of scenario S5: three within one second, a fourth and a fifth
in the next window. -/
def s5Logins : List (Int × RequestData) :=
  bobLogins (clock0 + Second) ++
    [(clock0 + 2 * Second + 500 * Millisecond, login "10.0.0.1:5000" "bob"),
     (clock0 + 2 * Second + 700 * Millisecond, login "10.0.0.1:5000" "bob")]

/-- The limiter of scenario S5 after the three Logins of "bob": limiting, with
"bob" recorded for 10.0.0.1. -/
def afterBob : botFilterConnLimiter := (s5Limiter.run (bobLogins (clock0 + Second))).2

/-- The limiter `afterBob` after a Login from 10.0.0.1 under "eve", which
blacklists the address. -/
def afterEve : botFilterConnLimiter :=
  (afterBob.Allow (clock0 + Second + 700 * Millisecond) (login "10.0.0.1:5001" "eve")).2

/-- The limiter inside the window opened at `t1`, with `n` Logins counted,
limit 2 and a window of one second, not limiting, and nothing known about
`ip`. -/
def quietWindow (l : botFilterConnLimiter) (t1 n : Int) (ip : String) : Prop :=
  l.limiting = false ∧ l.rateCounter = n ∧ l.rateStartTime = t1 ∧ l.rateLimit = 2 ∧
    l.rateCooldown = Second ∧ l.blackList ip = none ∧ l.namesList ip = none

/-- The limiter `afterBob` after a fourth Login of "bob", nine and a half
seconds into the unverify cooldown: a new window, still limiting. -/
def lateWindow : botFilterConnLimiter :=
  (afterBob.Allow (clock0 + 10 * Second + 500 * Millisecond) (login "10.0.0.1:5000" "bob")).2

/-- A limiter as in scenario S5, built at `clock0` and left alone for twenty
seconds, after three Logins of "bob" within one second: limiting, with
`lastTimeAboveLimit` still at `clock0`. -/
def staleLimit : botFilterConnLimiter := (s5Limiter.run (bobLogins (clock0 + 20 * Second))).2

/-! ## The worker manager -/

/-- Modelled from the spec: the `UpdatableWorker` interface, whose declaration
is not among the sources. A worker observes snapshots of the domain map: it is
the list of the maps handed to its `Update`, the latest first. A backend
channel is identified by a number. -/
structure UpdatableWorker where
  updates : List (String → Option Nat)

/-- The method `Update` of an `UpdatableWorker`. -/
def UpdatableWorker.Update (w : UpdatableWorker) (domains : String → Option Nat) :
    UpdatableWorker :=
  { updates := domains :: w.updates }

/-- The fields `domains` and `workers` of the struct `workerManager`. -/
structure workerManager where
  domains : String → Option Nat
  workers : List UpdatableWorker

/-- `NewWorkerManager`: an empty domain map and no workers. -/
def NewWorkerManager : workerManager :=
  { domains := mapEmpty, workers := [] }

/-- `workerManager.update`: every worker is handed the domain map. -/
def workerManager.update (manager : workerManager) : workerManager :=
  { manager with workers := manager.workers.map (fun wrk => wrk.Update manager.domains) }

/-- `workerManager.AddBackend`. -/
def workerManager.AddBackend (manager : workerManager) (domains : List String) (ch : Nat) :
    workerManager :=
  workerManager.update
    { manager with domains := domains.foldl (fun m domain => mapSet m domain ch) manager.domains }

/-- `workerManager.RemoveBackend`. -/
def workerManager.RemoveBackend (manager : workerManager) (domains : List String) :
    workerManager :=
  workerManager.update
    { manager with domains := domains.foldl (fun m domain => mapDelete m domain) manager.domains }

/-- `workerManager.Register`. -/
def workerManager.Register (manager : workerManager) (worker : UpdatableWorker) (update : Bool) :
    workerManager :=
  { manager with
    workers := manager.workers ++ [if update then worker.Update manager.domains else worker] }

/-- `workerManager.KnowsDomain`. -/
def workerManager.KnowsDomain (manager : workerManager) (domain : String) : Bool :=
  (manager.domains domain).isSome

/-- Two strings are equal up to the case of their letters. -/
def equalUpToCase (a b : String) : Bool :=
  a.data.map Char.toLower == b.data.map Char.toLower

/-- A Go `error` value: its message, and whether `errors.Is(err, os.ErrNotExist)`
holds of it. -/
structure GoError where
  msg : String
  isNotExist : Bool
  deriving DecidableEq

/-- The fields of `config.UltravioletConfig` that `Start` reads. -/
structure UltravioletConfig where
  NumberOfWorkers : Int
  IODeadline : Int

/-- Modelled from the spec: `NewWorker`, whose definition is not among the
sources: a worker that has been handed no domain map yet. That `Start` runs
the worker's `Work` in a goroutine is left out. -/
def NewWorker : UpdatableWorker :=
  { updates := [] }

/-- The loop of `workerManager.Start` (lines 41-47), for `n` iterations: a
worker is created and registered with `update = true`. -/
def workerManager.startWorkers (manager : workerManager) : Nat → workerManager
  | 0 => manager
  | n + 1 => workerManager.startWorkers (manager.Register NewWorker true) n

/-- `workerManager.Start`, given what the call `manager.cfgReader()` returns:
the error returned (`none` for `nil`) and the manager afterwards. -/
def workerManager.Start (manager : workerManager) (read : Except GoError UltravioletConfig) :
    Option GoError × workerManager :=
  match read with
  | Except.error err => (some err, manager)
  | Except.ok cfg => (none, manager.startWorkers cfg.NumberOfWorkers.toNat)

/-! ## The connection-state agent -/

/-- The type `ServerState`. -/
inductive ServerState where
  | Unknown
  | Online
  | Offline
  deriving DecidableEq

/-- Modelled from the spec: the connection-state agent of section 4.3, whose
source `module/state_agent.go` is not among the sources: the cooldown, the
cached state, and the time of the last probe (none before the first). -/
structure McServerState where
  cooldown : Int
  state : ServerState
  lastProbe : Option Int

/-- Modelled from the spec: `NewMcServerState`, not among the sources: nothing
probed yet, the state unknown. -/
def NewMcServerState (cooldown : Int) : McServerState :=
  { cooldown := cooldown, state := ServerState.Unknown, lastProbe := none }

/-- Modelled from the spec: the probe of section 4.3, not among the sources:
one dial, whose success is `dialOk`; the cached state becomes Online on
success and Offline on any error, and `lastProbe` becomes `now`. -/
def McServerState.probe (a : McServerState) (now : Int) (dialOk : Bool) :
    ServerState × McServerState × Nat :=
  let st := if dialOk then ServerState.Online else ServerState.Offline
  (st, { a with state := st, lastProbe := some now }, 1)

/-- Modelled from the spec: `State()` of section 4.3, not among the sources,
called when the clock reads `now`: if `now - lastProbe < stateUpdateCooldown`
the cached value is returned, otherwise the backend is probed. The result is
the answer, the agent afterwards, and the number of dials made. -/
def McServerState.State (a : McServerState) (now : Int) (dialOk : Bool) :
    ServerState × McServerState × Nat :=
  match a.lastProbe with
  | none => a.probe now dialOk
  | some t => if Since now t < a.cooldown then (a.state, a, 0) else a.probe now dialOk

/-- The agent of scenario S6 after its first probe, a failed dial at
`clock0`. -/
def probedOffline : McServerState := ((NewMcServerState (60 * Second)).State clock0 false).2.1

/-! ## The status cache -/

/-- Modelled from the spec: how the backend behaves during one exchange of
section 4.4, step by step: the error of the dial (step 1), of writing the
handshake (step 2), of writing the status request (step 3), the packet or the
error of reading the StatusResponse (step 4), the error of writing the ping
and of reading it back (step 5); `none` is success. -/
structure Backend where
  dial : Option GoError
  writeHandshake : Option GoError
  writeRequest : Option GoError
  readResponse : Except GoError Packet
  writePing : Option GoError
  readPing : Option GoError

/-- Modelled from the spec: the exchange of section 4.4, whose source
`module/status_cache.go` is not among the sources: a failure through step 4
is returned; a failure in the ping steps is ignored, the StatusResponse being
in hand. -/
def Backend.exchange (b : Backend) : Except GoError Packet :=
  match b.dial with
  | some err => Except.error err
  | none =>
    match b.writeHandshake with
    | some err => Except.error err
    | none =>
      match b.writeRequest with
      | some err => Except.error err
      | none =>
        match b.readResponse with
        | Except.error err => Except.error err
        | Except.ok pk =>
          match b.writePing with
          | some _ => Except.ok pk
          | none =>
            match b.readPing with
            | some _ => Except.ok pk
            | none => Except.ok pk

/-- Modelled from the spec: the status cache of sections 3 and 4.4, not among
the sources: the protocol version, the cooldown, and the entry: a packet and
the time it expires. -/
structure StatusCache where
  protocol : Int
  cooldown : Int
  entry : Option (Packet × Int)

/-- Modelled from the spec: `NewStatusCache`, not among the sources: no entry
yet. -/
def NewStatusCache (protocol : Int) (cooldown : Int) : StatusCache :=
  { protocol := protocol, cooldown := cooldown, entry := none }

/-- Modelled from the spec: the refresh of section 4.4, not among the sources:
one exchange with the backend; its packet is stored, to expire one cooldown
after `now`; on an error the cache is not updated. -/
def StatusCache.refresh (c : StatusCache) (now : Int) (b : Backend) :
    Except GoError Packet × StatusCache × Nat :=
  match b.exchange with
  | Except.error err => (Except.error err, c, 1)
  | Except.ok pk => (Except.ok pk, { c with entry := some (pk, now + c.cooldown) }, 1)

/-- Modelled from the spec: `Status()` of section 4.4, not among the sources,
called when the clock reads `now`: an entry that has not expired is returned
as it is, otherwise the cache is refreshed from the backend `b`. The result
is the answer, the cache afterwards, and the number of exchanges made. -/
def StatusCache.Status (c : StatusCache) (now : Int) (b : Backend) :
    Except GoError Packet × StatusCache × Nat :=
  match c.entry with
  | none => c.refresh now b
  | some (pk, expiresAt) => if now < expiresAt then (Except.ok pk, c, 0) else c.refresh now b

/-- The StatusResponse packet of a backend. -/
def backendStatus : Packet := ⟨0, [98, 97, 99, 107, 101, 110, 100]⟩

/-- A backend whose dial fails. -/
def refusingBackend : Backend :=
  { dial := some ⟨"cant create connection", false⟩
    writeHandshake := none
    writeRequest := none
    readResponse := Except.ok backendStatus
    writePing := none
    readPing := none }

/-- A backend that answers the status request and closes the connection before
the ping. -/
def hangsUpAfterStatus : Backend :=
  { dial := none
    writeHandshake := none
    writeRequest := none
    readResponse := Except.ok backendStatus
    writePing := some ⟨"io: read/write on closed pipe", false⟩
    readPing := some ⟨"io: read/write on closed pipe", false⟩ }

/-- A backend that completes the whole exchange. -/
def healthyBackend : Backend :=
  { dial := none
    writeHandshake := none
    writeRequest := none
    readResponse := Except.ok backendStatus
    writePing := none
    readPing := none }

/-- The cache of scenario S2 after the status was fetched at `clock0`. -/
def cachedStatus : StatusCache :=
  ((NewStatusCache 755 (60 * Second)).Status clock0 healthyBackend).2.1

/-! ## Backend configuration -/

/-- The constant `CACHE` of type `StateOptions`, an `int` (the value 0 is the
blank constant). -/
def CACHE : Int := 1

/-- The constant `ALWAYS_ONLINE`. -/
def ALWAYS_ONLINE : Int := 2

/-- The constant `ALWAYS_OFFLINE`. -/
def ALWAYS_OFFLINE : Int := 3

/-- `NewStateOption`. -/
def NewStateOption (option : String) : Int :=
  if option = "online" then ALWAYS_ONLINE
  else if option = "offline" then ALWAYS_OFFLINE
  else CACHE

/-- An `mc.SimpleStatus`. -/
structure SimpleStatus where
  Name : String
  Protocol : Int
  Description : String

/-- The struct `ServerConfig`. -/
structure ServerConfig where
  FilePath : String
  Name : String
  Domains : List String
  ProxyTo : String
  ProxyBind : String
  DialTimeout : String
  OldRealIP : Bool
  NewRealIP : Bool
  RealIPKey : String
  SendProxyProtocol : Bool
  DisconnectMessage : String
  CacheStatus : Bool
  CacheUpdateCooldown : String
  ValidProtocol : Int
  OfflineStatus : SimpleStatus
  RateLimit : Int
  RateDuration : String
  RateBanListCooldown : String
  RateDisconMsg : String
  CheckStateOption : String
  StateUpdateCooldown : String

/-- The struct `BackendWorkerConfig`. A private key is identified by a number;
`RealIPKey` is `none` for the nil pointer. -/
structure BackendWorkerConfig where
  Name : String
  StateOption : Int
  StateUpdateCooldown : Int
  OldRealIp : Bool
  NewRealIP : Bool
  RealIPKey : Option Nat
  CacheStatus : Bool
  CacheUpdateCooldown : Int
  ValidProtocol : Int
  OfflineStatus : Packet
  DisconnectPacket : Packet
  ProxyTo : String
  ProxyBind : String
  DialTimeout : Int
  SendProxyProtocol : Bool
  RateLimit : Int
  RateLimitStatus : Bool
  RateLimitDuration : Int
  RateBanListCooldown : Int
  RateDisconPk : Packet

/-- What the libraries answer while a config is converted: the file system
(`ioutil.ReadFile`, and the error of `os.Stat` if any), the key parser
`x509.ParseECPrivateKey`, the key generator `ecdsa.GenerateKey`,
`filepath.Dir` and `filepath.Join`, `time.ParseDuration` (`none` when the
string does not parse), and the `Marshal` methods of `mc.ClientBoundDisconnect`
(with a `mc.Chat` and with a `mc.String` reason) and of `mc.SimpleStatus`. -/
structure ConfigEnv where
  ReadFile : String → Except GoError (List Nat)
  Stat : String → Option GoError
  ParseECPrivateKey : List Nat → Except GoError Nat
  GenerateKey : Except GoError Nat
  Dir : String → String
  Join : String → String → String
  ParseDuration : String → Option Int
  MarshalChatDisconnect : String → Packet
  MarshalStringDisconnect : String → Packet
  MarshalStatus : SimpleStatus → Packet

/-- How a call can fail: by returning an error, or by a run-time panic (an
index out of range). -/
inductive Failure where
  | error (err : GoError)
  | panic
  deriving DecidableEq

/-- `ReadPrivateKey`. -/
def ReadPrivateKey (env : ConfigEnv) (path : String) : Except GoError Nat :=
  match env.ReadFile path with
  | Except.error err => Except.error err
  | Except.ok bb => env.ParseECPrivateKey bb

/-- `CheckExistingGeneratedKey`: the key, if any, and the flag. Indexing
`cfg.Domains[0]` panics on an empty list. -/
def CheckExistingGeneratedKey (env : ConfigEnv) (cfg : ServerConfig) :
    Except Failure (Option Nat × Bool) :=
  match cfg.Domains with
  | [] => Except.error Failure.panic
  | domain :: _ =>
    let privkeyFileName := env.Join (env.Dir cfg.FilePath) (domain ++ "-" ++ "private.key")
    let missing : Bool :=
      match env.Stat privkeyFileName with
      | some err => err.isNotExist
      | none => false
    if missing then Except.ok (none, false)
    else
      match ReadPrivateKey env privkeyFileName with
      | Except.error _ => Except.ok (none, false)
      | Except.ok privateKey => Except.ok (some privateKey, true)

/-- `GenerateKeys`: the key, or `none` (nil) when `ecdsa.GenerateKey` fails.
The two key files it writes are not modelled; errors of writing them are only
logged. Indexing `cfg.Domains[0]` panics on an empty list. -/
def GenerateKeys (env : ConfigEnv) (cfg : ServerConfig) : Except Failure (Option Nat) :=
  match env.GenerateKey with
  | Except.error _ => Except.ok none
  | Except.ok privkey =>
    match cfg.Domains with
    | [] => Except.error Failure.panic
    | _ :: _ => Except.ok (some privkey)

/-- Lines 158-161 of `ServerToBackendConfig`: the name of the backend. -/
def backendName (cfg : ServerConfig) : Except Failure String :=
  if cfg.Name = "" then
    match cfg.Domains with
    | [] => Except.error Failure.panic
    | domain :: _ => Except.ok domain
  else Except.ok cfg.Name

/-- Lines 174-186 of `ServerToBackendConfig`: the private key assigned to
`RealIPKey`. -/
def loadRealIPKey (env : ConfigEnv) (cfg : ServerConfig) : Except Failure (Option Nat) :=
  match ReadPrivateKey env cfg.RealIPKey with
  | Except.ok privateKey => Except.ok (some privateKey)
  | Except.error err =>
    if err.isNotExist then
      match CheckExistingGeneratedKey env cfg with
      | Except.error f => Except.error f
      | Except.ok (key, ok) => if ok then Except.ok key else GenerateKeys env cfg
    else Except.error (Failure.error err)

/-- Lines 190-236 of `ServerToBackendConfig`: the packets, the durations, the
status cache and rate limit settings. -/
def fillWorkerConfig (env : ConfigEnv) (cfg : ServerConfig) (workerCfg : BackendWorkerConfig) :
    BackendWorkerConfig :=
  let w1 : BackendWorkerConfig :=
    { workerCfg with
      DisconnectPacket := env.MarshalChatDisconnect cfg.DisconnectMessage
      OfflineStatus := env.MarshalStatus cfg.OfflineStatus
      StateUpdateCooldown := (env.ParseDuration cfg.StateUpdateCooldown).getD Second
      DialTimeout := (env.ParseDuration cfg.DialTimeout).getD Second }
  let w2 : BackendWorkerConfig :=
    if cfg.CacheStatus then
      { w1 with
        CacheStatus := true
        CacheUpdateCooldown := (env.ParseDuration cfg.CacheUpdateCooldown).getD Second
        ValidProtocol := cfg.ValidProtocol }
    else w1
  if cfg.RateLimit > 0 then
    { w2 with
      RateLimitDuration := (env.ParseDuration cfg.RateDuration).getD Second
      RateBanListCooldown := (env.ParseDuration cfg.RateBanListCooldown).getD (15 * (60 * Second))
      RateDisconPk := env.MarshalStringDisconnect cfg.RateDisconMsg }
  else w2

/-- `ServerToBackendConfig`: the config on a `nil` error, else the failure. -/
def ServerToBackendConfig (env : ConfigEnv) (cfg : ServerConfig) :
    Except Failure BackendWorkerConfig :=
  match backendName cfg with
  | Except.error f => Except.error f
  | Except.ok name =>
    let workerCfg : BackendWorkerConfig :=
      { Name := name
        StateOption := NewStateOption cfg.CheckStateOption
        StateUpdateCooldown := 0
        OldRealIp := cfg.OldRealIP
        NewRealIP := cfg.NewRealIP
        RealIPKey := none
        CacheStatus := false
        CacheUpdateCooldown := 0
        ValidProtocol := 0
        OfflineStatus := ⟨0, []⟩
        DisconnectPacket := ⟨0, []⟩
        ProxyTo := cfg.ProxyTo
        ProxyBind := cfg.ProxyBind
        DialTimeout := 0
        SendProxyProtocol := cfg.SendProxyProtocol
        RateLimit := cfg.RateLimit
        RateLimitStatus := false
        RateLimitDuration := 0
        RateBanListCooldown := 0
        RateDisconPk := ⟨0, []⟩ }
    if cfg.NewRealIP then
      match loadRealIPKey env cfg with
      | Except.error f => Except.error f
      | Except.ok privateKey =>
        Except.ok
          (fillWorkerConfig env cfg { workerCfg with NewRealIP := true, RealIPKey := privateKey })
    else Except.ok (fillWorkerConfig env cfg workerCfg)

/-- A file system with one key file, `/etc/ultraviolet/realip.key`, and a key
generator that fails; durations are not parsed, packets are empty. -/
def brokenGeneratorEnv : ConfigEnv :=
  { ReadFile := fun path =>
      if path = "/etc/ultraviolet/realip.key" then Except.ok [48, 129, 164]
      else Except.error ⟨"open " ++ path ++ ": no such file or directory", true⟩
    Stat := fun path =>
      if path = "/etc/ultraviolet/realip.key" then none
      else some ⟨"stat " ++ path ++ ": no such file or directory", true⟩
    ParseECPrivateKey := fun _ => Except.ok 7
    GenerateKey := Except.error ⟨"crypto/rand: read failed", false⟩
    Dir := fun _ => "/etc/ultraviolet"
    Join := fun dir file => dir ++ "/" ++ file
    ParseDuration := fun _ => none
    MarshalChatDisconnect := fun _ => ⟨0, []⟩
    MarshalStringDisconnect := fun _ => ⟨0, []⟩
    MarshalStatus := fun _ => ⟨0, []⟩ }

/-- A server config with both RealIP flags set and the key file present. -/
def bothRealIPConfig : ServerConfig :=
  { FilePath := "/etc/ultraviolet/example.json"
    Name := "example"
    Domains := ["example.local"]
    ProxyTo := "127.0.0.1:25600"
    ProxyBind := ""
    DialTimeout := "1s"
    OldRealIP := true
    NewRealIP := true
    RealIPKey := "/etc/ultraviolet/realip.key"
    SendProxyProtocol := false
    DisconnectMessage := ""
    CacheStatus := true
    CacheUpdateCooldown := "1m"
    ValidProtocol := 755
    OfflineStatus := ⟨"example", 755, "offline"⟩
    RateLimit := 5
    RateDuration := "1s"
    RateBanListCooldown := "5m"
    RateDisconMsg := ""
    CheckStateOption := ""
    StateUpdateCooldown := "5s" }

/-- A server config with `useRealIPv2.5` set whose key file does not exist and
for which no key was generated before. -/
def missingKeyConfig : ServerConfig :=
  { bothRealIPConfig with OldRealIP := false, RealIPKey := "/etc/ultraviolet/missing.key" }

/-- The config that `ServerToBackendConfig` returns for `bothRealIPConfig` in
`brokenGeneratorEnv`. -/
def bothRealIPWorker : BackendWorkerConfig :=
  { Name := "example"
    StateOption := CACHE
    StateUpdateCooldown := Second
    OldRealIp := true
    NewRealIP := true
    RealIPKey := some 7
    CacheStatus := true
    CacheUpdateCooldown := Second
    ValidProtocol := 755
    OfflineStatus := ⟨0, []⟩
    DisconnectPacket := ⟨0, []⟩
    ProxyTo := "127.0.0.1:25600"
    ProxyBind := ""
    DialTimeout := Second
    SendProxyProtocol := false
    RateLimit := 5
    RateLimitStatus := false
    RateLimitDuration := Second
    RateBanListCooldown := 15 * (60 * Second)
    RateDisconPk := ⟨0, []⟩ }

/-- The absolute limiter after successive `Allow` calls, one per timed
request. -/
def absoluteConnlimiter.after (r : absoluteConnlimiter) :
    List (Int × RequestData) → absoluteConnlimiter
  | [] => r
  | e :: evs => absoluteConnlimiter.after (r.Allow e.1 e.2).2 evs

/-- The answers of successive `Allow` calls of the absolute limiter are all
true. -/
def allTrue (res : List Bool) : Bool := res.all (fun b => b)

/-- A Status request from `addr`. -/
def status (addr : String) : RequestData :=
  { ReqType := RequestType.Status, Addr := addr, Username := "" }

/-- Five requests within one second, Logins and Status requests mixed. -/
def mixedRequests : List (Int × RequestData) :=
  [(clock0, login "10.0.0.1:5000" "bob"), (clock0 + 100 * Millisecond, status "10.0.0.2:6000"),
   (clock0 + 200 * Millisecond, login "10.0.0.3:7000" "eve"),
   (clock0 + 300 * Millisecond, login "10.0.0.1:5000" "bob"),
   (clock0 + 400 * Millisecond, status "10.0.0.2:6000")]

/-- A manager with one worker registered without update and one with, and a
backend on channel 3 for "old.example". -/
def sampleManager : workerManager :=
  ((NewWorkerManager.Register NewWorker false).Register NewWorker true).AddBackend
    ["old.example"] 3

/-- An environment as `brokenGeneratorEnv` in which "1m" and "5s" parse as
durations and nothing else does. -/
def parsingEnv : ConfigEnv :=
  { brokenGeneratorEnv with
    ParseDuration := fun s =>
      if s = "1m" then some (60 * Second)
      else if s = "5s" then some (5 * Second)
      else none }

/-- A server config without RealIP and without a name. -/
def plainConfig : ServerConfig :=
  { bothRealIPConfig with Name := "", OldRealIP := false, NewRealIP := false }

/-- The config that `ServerToBackendConfig` returns for `plainConfig` in
`parsingEnv`. -/
def plainWorker : BackendWorkerConfig :=
  { Name := "example.local"
    StateOption := CACHE
    StateUpdateCooldown := 5 * Second
    OldRealIp := false
    NewRealIP := false
    RealIPKey := none
    CacheStatus := true
    CacheUpdateCooldown := 60 * Second
    ValidProtocol := 755
    OfflineStatus := ⟨0, []⟩
    DisconnectPacket := ⟨0, []⟩
    ProxyTo := "127.0.0.1:25600"
    ProxyBind := ""
    DialTimeout := Second
    SendProxyProtocol := false
    RateLimit := 5
    RateLimitStatus := false
    RateLimitDuration := Second
    RateBanListCooldown := 15 * (60 * Second)
    RateDisconPk := ⟨0, []⟩ }

/-! ## Theorems: the absolute limiter -/

theorem allowedLoginsIn_late (a : Int) (d : Int) (evs : List (Int × RequestData)) :
    ∀ res : List Bool, (∀ e ∈ evs, a + d ≤ e.1) → allowedLoginsIn a d evs res = 0 := by
  induction evs with
  | nil => intro res _; cases res <;> rfl
  | cons e evs ih =>
    intro res h
    cases res with
    | nil => rfl
    | cons b res =>
      have he : a + d ≤ e.1 := h e (List.mem_cons_self _ _)
      have hrest := ih res (fun f hf => h f (List.mem_cons_of_mem _ hf))
      simp only [allowedLoginsIn, hrest]
      have : ¬ (b = true ∧ e.2.ReqType = RequestType.Login ∧ a ≤ e.1 ∧ e.1 < a + d) := by
        intro hc
        omega
      simp [this]

/-- Inside a window that started at `r.rateStartTime`, the Logins still
allowed are at most what is left of the limit. -/
theorem abs_window_invariant (evs : List (Int × RequestData)) :
    ∀ r : absoluteConnlimiter, r.limitStatus = true →
      List.Pairwise (fun e f : Int × RequestData => e.1 ≤ f.1) evs →
      allowedLoginsIn r.rateStartTime r.rateCooldown evs (r.run evs)
        ≤ (r.rateLimit - r.rateCounter).toNat := by
  induction evs with
  | nil => intro r _ _; simp [allowedLoginsIn]
  | cons e evs ih =>
    intro r hls hmono
    rw [List.pairwise_cons] at hmono
    obtain ⟨hhead, htail⟩ := hmono
    by_cases hexp : Since e.1 r.rateStartTime ≥ r.rateCooldown
    · -- the request is outside the window, and so is every later one
      have hlate : ∀ f ∈ e :: evs, r.rateStartTime + r.rateCooldown ≤ f.1 := by
        intro f hf
        rcases List.mem_cons.mp hf with rfl | hf
        · unfold Since at hexp; omega
        · have := hhead f hf
          unfold Since at hexp; omega
      rw [allowedLoginsIn_late _ _ _ _ hlate]
      exact Nat.zero_le _
    · have hstep : r.Allow e.1 e.2 =
          if r.rateCounter < r.rateLimit then
            (true, { r with rateCounter := r.rateCounter + 1 })
          else (false, r) := by
        unfold absoluteConnlimiter.Allow
        simp [hexp, hls]
      by_cases hlt : r.rateCounter < r.rateLimit
      · rw [if_pos hlt] at hstep
        have hrec := ih (r.Allow e.1 e.2).2 (by rw [hstep]; exact hls) htail
        simp only [absoluteConnlimiter.run, allowedLoginsIn]
        rw [hstep] at hrec ⊢
        simp only at hrec ⊢
        have : (r.rateLimit - (r.rateCounter + 1)).toNat + 1 = (r.rateLimit - r.rateCounter).toNat := by
          omega
        split_ifs <;> omega
      · rw [if_neg hlt] at hstep
        have hrec := ih (r.Allow e.1 e.2).2 (by rw [hstep]; exact hls) htail
        simp only [absoluteConnlimiter.run, allowedLoginsIn]
        rw [hstep] at hrec ⊢
        simp only at hrec ⊢
        simpa using hrec

/-- C1 (amended): with `limitStatus = true`, in every window of the limiter,
that is from a request that resets the counter at time `t0` through all later
requests (clock readings never decreasing), the Login requests that arrive at
a time in `[t0, t0 + rateCooldown)` and for which `Allow` returns true are at
most `rateLimit` (none when `rateLimit` is negative). -/
theorem C1_abs_limiter_window_bound (r : absoluteConnlimiter) (t0 : Int) (req0 : RequestData)
    (evs : List (Int × RequestData))
    (hls : r.limitStatus = true)
    (hopen : Since t0 r.rateStartTime ≥ r.rateCooldown)
    (hmono : List.Pairwise (fun e f : Int × RequestData => e.1 ≤ f.1) ((t0, req0) :: evs)) :
    allowedLoginsIn t0 r.rateCooldown ((t0, req0) :: evs) (r.run ((t0, req0) :: evs))
      ≤ r.rateLimit.toNat := by
  rw [List.pairwise_cons] at hmono
  obtain ⟨_, htail⟩ := hmono
  have hstep : r.Allow t0 req0 =
      if 0 < r.rateLimit then
        (true, { r with rateCounter := 1, rateStartTime := t0 })
      else (false, { r with rateCounter := 0, rateStartTime := t0 }) := by
    unfold absoluteConnlimiter.Allow
    simp [hopen, hls]
  by_cases hlt : 0 < r.rateLimit
  · rw [if_pos hlt] at hstep
    have hrec := abs_window_invariant evs (r.Allow t0 req0).2 (by rw [hstep]; exact hls) htail
    simp only [absoluteConnlimiter.run, allowedLoginsIn]
    rw [hstep] at hrec ⊢
    simp only at hrec ⊢
    split_ifs <;> omega
  · rw [if_neg hlt] at hstep
    have hrec := abs_window_invariant evs (r.Allow t0 req0).2 (by rw [hstep]; exact hls) htail
    simp only [absoluteConnlimiter.run, allowedLoginsIn]
    rw [hstep] at hrec ⊢
    simp only at hrec ⊢
    simp only [Bool.false_eq_true, false_and, if_false, Nat.zero_add]
    omega

/-- C1 (witness): the window bound on a limiter of two Logins per ten
seconds. -/
theorem C1_abs_limiter_window_bound_witness :
    allowedLoginsIn clock0 (10 * Second) burstLogins
      ((NewAbsConnLimiter 2 (10 * Second) true).run burstLogins) ≤ (2 : Int).toNat :=
  C1_abs_limiter_window_bound (NewAbsConnLimiter 2 (10 * Second) true) clock0
    (login "10.0.0.1:5000" "bob") burstLogins.tail rfl (by decide) (by decide)

/-- C1 (counterexample): with `limitStatus = false`, limit 1 and a window of
ten seconds, two Logins one second apart are both allowed; and with
`limitStatus = true`, limit 2, the ten seconds from `clock0 + 9s` hold three
allowed Logins, the limiter having started a new window inside them. -/
theorem C1_counterexample :
    ¬ (allowedLoginsIn clock0 (10 * Second) twoLogins
        ((NewAbsConnLimiter 1 (10 * Second) false).run twoLogins) ≤ 1) ∧
    ¬ (allowedLoginsIn (clock0 + 9 * Second) (10 * Second) burstLogins
        ((NewAbsConnLimiter 2 (10 * Second) true).run burstLogins) ≤ 2) := by
  decide

/-! ## Theorems: the bot-filter limiter -/

theorem rollWindow_blackList (l : botFilterConnLimiter) (now : Int) :
    (l.rollWindow now).blackList = l.blackList := by
  unfold botFilterConnLimiter.rollWindow
  dsimp only
  split_ifs <;> rfl

theorem rollWindow_namesList (l : botFilterConnLimiter) (now : Int) :
    (l.rollWindow now).namesList = l.namesList := by
  unfold botFilterConnLimiter.rollWindow
  dsimp only
  split_ifs <;> rfl

theorem rollWindow_listClearTime (l : botFilterConnLimiter) (now : Int) :
    (l.rollWindow now).listClearTime = l.listClearTime := by
  unfold botFilterConnLimiter.rollWindow
  dsimp only
  split_ifs <;> rfl

theorem rollWindow_rateLimit (l : botFilterConnLimiter) (now : Int) :
    (l.rollWindow now).rateLimit = l.rateLimit := by
  unfold botFilterConnLimiter.rollWindow
  dsimp only
  split_ifs <;> rfl

/-- A Login from an address whose blacklist entry has not expired: denied,
only the window and the counter move. -/
theorem Allow_of_blacklisted (l : botFilterConnLimiter) (now : Int) (req : RequestData)
    (hreq : req.ReqType ≠ RequestType.Status)
    (hb : l.blacklisted now (FilterIpFromAddr req.Addr) = true) :
    l.Allow now req =
      (false, { l.rollWindow now with
        rateCounter := wrapInt64 ((l.rollWindow now).rateCounter + 1) }) := by
  unfold botFilterConnLimiter.blacklisted at hb
  unfold botFilterConnLimiter.Allow
  rw [if_neg hreq]
  dsimp only
  rw [rollWindow_blackList, rollWindow_listClearTime]
  cases hbl : l.blackList (FilterIpFromAddr req.Addr) with
  | none => rw [hbl] at hb; simp at hb
  | some t =>
    rw [hbl] at hb
    have hlt : Since now t < l.listClearTime := by simpa using hb
    simp [not_le.mpr hlt]

/-- A Login from an address without an unexpired blacklist entry goes on to
the username check, with the entry (if any) deleted. -/
theorem Allow_of_not_blacklisted (l : botFilterConnLimiter) (now : Int) (req : RequestData)
    (hreq : req.ReqType ≠ RequestType.Status)
    (hb : l.blacklisted now (FilterIpFromAddr req.Addr) = false) :
    l.Allow now req =
      botFilterConnLimiter.verify
        { l.rollWindow now with
          rateCounter := wrapInt64 ((l.rollWindow now).rateCounter + 1)
          blackList := mapDelete l.blackList (FilterIpFromAddr req.Addr) }
        now req (FilterIpFromAddr req.Addr) := by
  unfold botFilterConnLimiter.blacklisted at hb
  unfold botFilterConnLimiter.Allow
  rw [if_neg hreq]
  dsimp only
  rw [rollWindow_blackList, rollWindow_listClearTime]
  cases hbl : l.blackList (FilterIpFromAddr req.Addr) with
  | none =>
    have hdel : mapDelete l.blackList (FilterIpFromAddr req.Addr) = l.blackList := by
      funext k
      unfold mapDelete
      split_ifs with hk
      · rw [hk, hbl]
      · rfl
    rw [hdel]
    simp only [Option.getD_none, Option.isSome_none, Bool.false_eq_true, if_false]
    split_ifs
    · rfl
    · rw [← rollWindow_blackList l now]
  | some t =>
    rw [hbl] at hb
    have hge : Since now t ≥ l.listClearTime := by simpa using hb
    simp [hge]

theorem verify_limiting (l : botFilterConnLimiter) (now : Int) (req : RequestData)
    (ip : String) :
    (botFilterConnLimiter.verify l now req ip).2.limiting
      = (l.limiting || decide (l.rateCounter > l.rateLimit)) := by
  unfold botFilterConnLimiter.verify
  dsimp only
  split_ifs with h1
  · split
    · rfl
    · split_ifs <;> rfl
  · rfl

/-- C2: while `blackList[ip] = t` and `now - t < listClearTime`, a Login from
`ip` is denied, whatever its username and whatever the limiting flag, and the
entry `blackList[ip] = t` is still there afterwards. -/
theorem C2_blacklisted_login_denied (l : botFilterConnLimiter) (now t : Int)
    (req : RequestData) (ip : String)
    (hentry : l.blackList ip = some t)
    (hreq : req.ReqType = RequestType.Login)
    (hip : FilterIpFromAddr req.Addr = ip)
    (hfresh : now - t < l.listClearTime) :
    (l.Allow now req).1 = false ∧ (l.Allow now req).2.blackList ip = some t := by
  subst hip
  have hb : l.blacklisted now (FilterIpFromAddr req.Addr) = true := by
    unfold botFilterConnLimiter.blacklisted
    rw [hentry]
    simpa [Since] using hfresh
  rw [Allow_of_blacklisted l now req (by rw [hreq]; decide) hb]
  exact ⟨rfl, by simpa [rollWindow_blackList] using hentry⟩

/-- C2 (witness): "bob" is denied from the address that "eve" got
blacklisted. -/
theorem C2_blacklisted_login_denied_witness :
    (afterEve.Allow (clock0 + 3 * Second) (login "10.0.0.1:5000" "bob")).1 = false ∧
      (afterEve.Allow (clock0 + 3 * Second) (login "10.0.0.1:5000" "bob")).2.blackList "10.0.0.1"
        = some (clock0 + Second + 700 * Millisecond) :=
  C2_blacklisted_login_denied afterEve (clock0 + 3 * Second)
    (clock0 + Second + 700 * Millisecond) (login "10.0.0.1:5000" "bob") "10.0.0.1"
    (by decide) rfl (by decide) (by decide)

/-- C3: a Status request is allowed and the limiter is left as it was. -/
theorem C3_status_allowed_state_unchanged (l : botFilterConnLimiter) (now : Int)
    (req : RequestData) (hreq : req.ReqType = RequestType.Status) :
    l.Allow now req = (true, l) := by
  unfold botFilterConnLimiter.Allow
  rw [if_pos hreq]

/-- C3 (witness): a Status request to the limiter `afterBob`. -/
theorem C3_status_allowed_state_unchanged_witness :
    afterBob.Allow (clock0 + 3 * Second) ⟨RequestType.Status, "10.0.0.9:4000", ""⟩
      = (true, afterBob) :=
  C3_status_allowed_state_unchanged afterBob (clock0 + 3 * Second)
    ⟨RequestType.Status, "10.0.0.9:4000", ""⟩ rfl

/-- C4: a Login from an address with no unexpired blacklist entry, limiting
being active after the counter update and `namesList` holding nothing for the
address: the username is recorded, the answer is false, and the address is
not in the blacklist afterwards. -/
theorem C4_first_sighting_recorded_and_denied (l : botFilterConnLimiter) (now : Int)
    (req : RequestData) (ip : String)
    (hreq : req.ReqType = RequestType.Login)
    (hip : FilterIpFromAddr req.Addr = ip)
    (hb : l.blacklisted now ip = false)
    (hlim : l.limitingAfterUpdate now = true)
    (hname : l.namesList ip = none) :
    (l.Allow now req).1 = false ∧
      (l.Allow now req).2.namesList ip = some req.Username ∧
      (l.Allow now req).2.blackList ip = none := by
  subst hip
  rw [Allow_of_not_blacklisted l now req (by rw [hreq]; decide) hb]
  unfold botFilterConnLimiter.limitingAfterUpdate at hlim
  unfold botFilterConnLimiter.verify
  simp only [hlim, if_true, rollWindow_namesList, hname]
  simp [mapSet, mapDelete]

/-- C4 (witness): the first Login of "alice" from 10.0.0.2 while limiting. -/
theorem C4_first_sighting_recorded_and_denied_witness :
    (afterBob.Allow (clock0 + Second + 700 * Millisecond) (login "10.0.0.2:6000" "alice")).1
        = false ∧
      (afterBob.Allow (clock0 + Second + 700 * Millisecond)
        (login "10.0.0.2:6000" "alice")).2.namesList "10.0.0.2" = some "alice" ∧
      (afterBob.Allow (clock0 + Second + 700 * Millisecond)
        (login "10.0.0.2:6000" "alice")).2.blackList "10.0.0.2" = none :=
  C4_first_sighting_recorded_and_denied afterBob (clock0 + Second + 700 * Millisecond)
    (login "10.0.0.2:6000" "alice") "10.0.0.2" rfl (by decide) (by decide) (by decide)
    (by decide)

/-- C5: a Login at `now` from an address with no unexpired blacklist entry,
limiting being active after the counter update and `namesList` holding another
username for the address: `blackList[ip] = now` is inserted, the answer is
false, and `namesList` is left as it was. -/
theorem C5_username_mismatch_blacklists (l : botFilterConnLimiter) (now : Int)
    (req : RequestData) (ip username : String)
    (hreq : req.ReqType = RequestType.Login)
    (hip : FilterIpFromAddr req.Addr = ip)
    (hb : l.blacklisted now ip = false)
    (hlim : l.limitingAfterUpdate now = true)
    (hname : l.namesList ip = some username)
    (hdiff : username ≠ req.Username) :
    (l.Allow now req).1 = false ∧
      (l.Allow now req).2.blackList ip = some now ∧
      (l.Allow now req).2.namesList = l.namesList := by
  subst hip
  rw [Allow_of_not_blacklisted l now req (by rw [hreq]; decide) hb]
  unfold botFilterConnLimiter.limitingAfterUpdate at hlim
  unfold botFilterConnLimiter.verify
  simp only [hlim, if_true, rollWindow_namesList, hname]
  simp [mapSet, hdiff, rollWindow_namesList]

/-- C5 (witness): "eve" from the address that "bob" holds, while limiting. -/
theorem C5_username_mismatch_blacklists_witness :
    (afterBob.Allow (clock0 + Second + 700 * Millisecond) (login "10.0.0.1:5001" "eve")).1
        = false ∧
      (afterBob.Allow (clock0 + Second + 700 * Millisecond)
        (login "10.0.0.1:5001" "eve")).2.blackList "10.0.0.1"
          = some (clock0 + Second + 700 * Millisecond) ∧
      (afterBob.Allow (clock0 + Second + 700 * Millisecond)
        (login "10.0.0.1:5001" "eve")).2.namesList = afterBob.namesList :=
  C5_username_mismatch_blacklists afterBob (clock0 + Second + 700 * Millisecond)
    (login "10.0.0.1:5001" "eve") "10.0.0.1" "bob" rfl (by decide) (by decide) (by decide)
    (by decide) (by decide)

/-- C6: a Login is allowed exactly when its address has no unexpired
blacklist entry and either limiting is not active after the counter update or
`namesList` holds the request's username for the address; and for an address
without unexpired entry the limiter's flag afterwards is that updated flag,
`limiting || counter > rateLimit`. -/
theorem C6_login_allowed_iff (l : botFilterConnLimiter) (now : Int) (req : RequestData)
    (hreq : req.ReqType = RequestType.Login) :
    ((l.Allow now req).1 = true ↔
      l.blacklisted now (FilterIpFromAddr req.Addr) = false ∧
        (l.limitingAfterUpdate now = false ∨
          l.namesList (FilterIpFromAddr req.Addr) = some req.Username)) ∧
    (l.blacklisted now (FilterIpFromAddr req.Addr) = false →
      (l.Allow now req).2.limiting = l.limitingAfterUpdate now) := by
  have hns : req.ReqType ≠ RequestType.Status := by rw [hreq]; decide
  cases hb : l.blacklisted now (FilterIpFromAddr req.Addr) with
  | true =>
    rw [Allow_of_blacklisted l now req hns hb]
    simp
  | false =>
    rw [Allow_of_not_blacklisted l now req hns hb]
    refine ⟨?_, fun _ => ?_⟩
    · unfold botFilterConnLimiter.verify
      dsimp only
      rw [rollWindow_namesList]
      cases hlim : l.limitingAfterUpdate now with
      | true =>
        unfold botFilterConnLimiter.limitingAfterUpdate at hlim
        simp only [hlim, if_true]
        cases hname : l.namesList (FilterIpFromAddr req.Addr) with
        | none => simp
        | some u =>
          by_cases hu : u = req.Username
          · simp [hu]
          · simp [hu]
      | false =>
        unfold botFilterConnLimiter.limitingAfterUpdate at hlim
        simp [hlim]
    · rw [verify_limiting]
      rfl

/-- C6 (witness): a Login of "bob" to the limiter `afterBob`. -/
theorem C6_login_allowed_iff_witness :
    ((afterBob.Allow (clock0 + 3 * Second) (login "10.0.0.1:5000" "bob")).1 = true ↔
      afterBob.blacklisted (clock0 + 3 * Second) (FilterIpFromAddr "10.0.0.1:5000") = false ∧
        (afterBob.limitingAfterUpdate (clock0 + 3 * Second) = false ∨
          afterBob.namesList (FilterIpFromAddr "10.0.0.1:5000") = some "bob")) ∧
    (afterBob.blacklisted (clock0 + 3 * Second) (FilterIpFromAddr "10.0.0.1:5000") = false →
      (afterBob.Allow (clock0 + 3 * Second) (login "10.0.0.1:5000" "bob")).2.limiting
        = afterBob.limitingAfterUpdate (clock0 + 3 * Second)) :=
  C6_login_allowed_iff afterBob (clock0 + 3 * Second) (login "10.0.0.1:5000" "bob") rfl

theorem rollWindow_of_not_expired (l : botFilterConnLimiter) (now : Int)
    (h : Since now l.rateStartTime < l.rateCooldown) : l.rollWindow now = l := by
  unfold botFilterConnLimiter.rollWindow
  rw [if_neg (not_le.mpr h)]

theorem blacklisted_of_none (l : botFilterConnLimiter) (now : Int) (ip : String)
    (h : l.blackList ip = none) : l.blacklisted now ip = false := by
  unfold botFilterConnLimiter.blacklisted
  rw [h]

/-- A Login whose address has no blacklist entry and whose username is the one
`namesList` holds for the address is allowed, and both facts stay. -/
theorem Allow_of_name_match (l : botFilterConnLimiter) (now : Int) (req : RequestData)
    (hreq : req.ReqType = RequestType.Login)
    (hbl : l.blackList (FilterIpFromAddr req.Addr) = none)
    (hname : l.namesList (FilterIpFromAddr req.Addr) = some req.Username) :
    (l.Allow now req).1 = true ∧
      (l.Allow now req).2.blackList (FilterIpFromAddr req.Addr) = none ∧
      (l.Allow now req).2.namesList (FilterIpFromAddr req.Addr) = some req.Username := by
  rw [Allow_of_not_blacklisted l now req (by rw [hreq]; decide) (blacklisted_of_none l now _ hbl)]
  unfold botFilterConnLimiter.verify
  dsimp only
  rw [rollWindow_namesList, hname]
  split_ifs <;> simp [mapDelete, rollWindow_namesList, hname]

theorem quietWindow_step (l : botFilterConnLimiter) (t1 n now : Int) (req : RequestData)
    (hq : quietWindow l t1 n (FilterIpFromAddr req.Addr))
    (hreq : req.ReqType = RequestType.Login)
    (hn0 : 0 ≤ n) (hn : n + 1 ≤ 2) (hnow : now - t1 < Second) :
    (l.Allow now req).1 = true ∧
      quietWindow (l.Allow now req).2 t1 (n + 1) (FilterIpFromAddr req.Addr) := by
  obtain ⟨hl, hc, hs, hlim, hcd, hbl, hnm⟩ := hq
  have hroll : l.rollWindow now = l :=
    rollWindow_of_not_expired l now (by rw [hs, hcd]; exact hnow)
  have hw : wrapInt64 (n + 1) = n + 1 := by unfold wrapInt64; omega
  rw [Allow_of_not_blacklisted l now req (by rw [hreq]; decide) (blacklisted_of_none l now _ hbl)]
  rw [hroll, hc, hw]
  unfold botFilterConnLimiter.verify quietWindow
  have hnot : ¬ (2 < n + 1) := by omega
  simp [hl, hlim, hnot, hs, hcd, hnm, mapDelete]

theorem quietWindow_trip (l : botFilterConnLimiter) (t1 now : Int) (req : RequestData)
    (hq : quietWindow l t1 2 (FilterIpFromAddr req.Addr))
    (hreq : req.ReqType = RequestType.Login) (hnow : now - t1 < Second) :
    (l.Allow now req).1 = false ∧
      (l.Allow now req).2.blackList (FilterIpFromAddr req.Addr) = none ∧
      (l.Allow now req).2.namesList (FilterIpFromAddr req.Addr) = some req.Username := by
  obtain ⟨hl, hc, hs, hlim, hcd, hbl, hnm⟩ := hq
  have hroll : l.rollWindow now = l :=
    rollWindow_of_not_expired l now (by rw [hs, hcd]; exact hnow)
  have hw : wrapInt64 (2 + 1) = 3 := by decide
  rw [Allow_of_not_blacklisted l now req (by rw [hreq]; decide) (blacklisted_of_none l now _ hbl)]
  rw [hroll, hc, hw]
  unfold botFilterConnLimiter.verify
  simp [hl, hlim, hnm, mapDelete, mapSet]

theorem quietWindow_fresh (c t1 clearTime unverify : Int) (pk : Packet) (req : RequestData)
    (hreq : req.ReqType = RequestType.Login) (h1 : Since t1 zeroTime ≥ Second) :
    ((NewBotFilterConnLimiter c 2 Second clearTime unverify pk).Allow t1 req).1 = true ∧
      quietWindow ((NewBotFilterConnLimiter c 2 Second clearTime unverify pk).Allow t1 req).2
        t1 1 (FilterIpFromAddr req.Addr) := by
  have hw : wrapInt64 1 = 1 := by decide
  rw [Allow_of_not_blacklisted _ t1 req (by rw [hreq]; decide) (blacklisted_of_none _ t1 _ rfl)]
  unfold botFilterConnLimiter.verify quietWindow botFilterConnLimiter.rollWindow
    NewBotFilterConnLimiter
  simp [h1, hw, mapDelete, mapEmpty]

/-- C7 (amended): on a fresh limiter with `rateLimit = 2`, a window of one
second and `unverifyCooldown` of ten seconds, of three Logins from
(10.0.0.1, "bob") inside one window the first two are allowed and the third,
which raises the counter above the limit, is denied with the username
recorded; a fourth Login from (10.0.0.1, "bob") and a fifth are both allowed,
whenever they arrive (in the next window in particular). -/
theorem C7_scenario_S5 (c t1 t2 t3 t4 t5 clearTime : Int) (pk : Packet)
    (h1 : Since t1 zeroTime ≥ Second) (h2 : t2 - t1 < Second) (h3 : t3 - t1 < Second) :
    ((NewBotFilterConnLimiter c 2 Second clearTime (10 * Second) pk).run
      [(t1, login "10.0.0.1:5000" "bob"), (t2, login "10.0.0.1:5000" "bob"),
       (t3, login "10.0.0.1:5000" "bob"), (t4, login "10.0.0.1:5000" "bob"),
       (t5, login "10.0.0.1:5000" "bob")]).1 = [true, true, false, true, true] := by
  obtain ⟨r1, q1⟩ := quietWindow_fresh c t1 clearTime (10 * Second) pk
    (login "10.0.0.1:5000" "bob") rfl h1
  obtain ⟨r2, q2⟩ := quietWindow_step _ t1 1 t2 (login "10.0.0.1:5000" "bob") q1 rfl
    (by omega) (by omega) h2
  obtain ⟨r3, b3, n3⟩ := quietWindow_trip _ t1 t3 (login "10.0.0.1:5000" "bob") q2 rfl h3
  obtain ⟨r4, b4, n4⟩ := Allow_of_name_match _ t4 (login "10.0.0.1:5000" "bob") rfl b3 n3
  obtain ⟨r5, _, _⟩ := Allow_of_name_match _ t5 (login "10.0.0.1:5000" "bob") rfl b4 n4
  simp only [botFilterConnLimiter.run]
  rw [r1, r2, r3, r4, r5]

/-- C7 (witness): the scenario with the limiter built at `clock0`. -/
theorem C7_scenario_S5_witness :
    (s5Limiter.run s5Logins).1 = [true, true, false, true, true] :=
  C7_scenario_S5 clock0 (clock0 + Second) (clock0 + Second + 300 * Millisecond)
    (clock0 + Second + 600 * Millisecond) (clock0 + 2 * Second + 500 * Millisecond)
    (clock0 + 2 * Second + 700 * Millisecond) (15 * 60 * Second) ⟨0, []⟩
    (by decide) (by decide) (by decide)

/-- C7 (counterexample): in scenario S5 the third Login is denied and the
fourth is allowed, so the answers are not true, true, true, false, true. -/
theorem C7_counterexample :
    (s5Limiter.run s5Logins).1 = [true, true, false, true, true] ∧
      (s5Limiter.run s5Logins).1 ≠ [true, true, true, false, true] := by
  decide

/-- The flag left by the window rollover of a limiter that is limiting: it is
cleared exactly when the window has expired and the unverify cooldown has run
out, counted from the start of that window if its counter was above the
limit. -/
theorem rollWindow_limiting_cleared_iff (l : botFilterConnLimiter) (now : Int)
    (hlim : l.limiting = true) :
    (l.rollWindow now).limiting = false ↔
      (Since now l.rateStartTime ≥ l.rateCooldown ∧
        Since now (if l.rateCounter > l.rateLimit then l.rateStartTime
          else l.lastTimeAboveLimit) ≥ l.unverifyCooldown) := by
  unfold botFilterConnLimiter.rollWindow
  by_cases hexp : Since now l.rateStartTime ≥ l.rateCooldown
  · by_cases hover : l.rateCounter > l.rateLimit
    · by_cases hcool : Since now l.rateStartTime ≥ l.unverifyCooldown
      · simp [hexp, hover, hlim, hcool]
      · simp [hexp, hover, hlim, hcool]
    · by_cases hcool : Since now l.lastTimeAboveLimit ≥ l.unverifyCooldown
      · simp [hexp, hover, hlim, hcool]
      · simp [hexp, hover, hlim, hcool]
  · simp [hexp, hlim]

/-- C8 (amended): for a Login at `now` in a state with `limiting = true`,
limiting is cleared before the counter is incremented exactly when the window
has expired (`now - rateStartTime >= rateCooldown`) and
`now - lastTimeAboveLimit >= unverifyCooldown`, `lastTimeAboveLimit` being
first set to `rateStartTime` when the expired window's counter was above
`rateLimit`; when it is cleared and the incremented counter does not exceed
`rateLimit`, the request is handled in non-limiting mode: it is allowed unless
its address has an unexpired blacklist entry. -/
theorem C8_limiting_cleared_only_at_rollover (l : botFilterConnLimiter) (now : Int)
    (req : RequestData)
    (hreq : req.ReqType = RequestType.Login)
    (hlim : l.limiting = true) :
    ((l.rollWindow now).limiting = false ↔
      (Since now l.rateStartTime ≥ l.rateCooldown ∧
        Since now (if l.rateCounter > l.rateLimit then l.rateStartTime
          else l.lastTimeAboveLimit) ≥ l.unverifyCooldown)) ∧
    ((l.rollWindow now).limiting = false →
      ¬ (wrapInt64 ((l.rollWindow now).rateCounter + 1) > l.rateLimit) →
      l.limitingAfterUpdate now = false ∧
        ((l.Allow now req).1 = true ↔
          l.blacklisted now (FilterIpFromAddr req.Addr) = false)) := by
  refine ⟨rollWindow_limiting_cleared_iff l now hlim, fun hclr hcnt => ?_⟩
  have hafter : l.limitingAfterUpdate now = false := by
    unfold botFilterConnLimiter.limitingAfterUpdate
    rw [hclr, rollWindow_rateLimit]
    simp [hcnt]
  refine ⟨hafter, ?_⟩
  have hns : req.ReqType ≠ RequestType.Status := by rw [hreq]; decide
  cases hb : l.blacklisted now (FilterIpFromAddr req.Addr) with
  | true =>
    rw [Allow_of_blacklisted l now req hns hb]
    simp
  | false =>
    rw [Allow_of_not_blacklisted l now req hns hb]
    unfold botFilterConnLimiter.limitingAfterUpdate at hafter
    unfold botFilterConnLimiter.verify
    simp [hafter]

/-- C8 (witness): the limiter `afterBob`, twelve seconds after the window
that went over the limit. -/
theorem C8_limiting_cleared_only_at_rollover_witness :
    ((afterBob.rollWindow (clock0 + 13 * Second)).limiting = false ↔
      (Since (clock0 + 13 * Second) afterBob.rateStartTime ≥ afterBob.rateCooldown ∧
        Since (clock0 + 13 * Second)
          (if afterBob.rateCounter > afterBob.rateLimit then afterBob.rateStartTime
            else afterBob.lastTimeAboveLimit) ≥ afterBob.unverifyCooldown)) ∧
    ((afterBob.rollWindow (clock0 + 13 * Second)).limiting = false →
      ¬ (wrapInt64 ((afterBob.rollWindow (clock0 + 13 * Second)).rateCounter + 1)
          > afterBob.rateLimit) →
      afterBob.limitingAfterUpdate (clock0 + 13 * Second) = false ∧
        ((afterBob.Allow (clock0 + 13 * Second) (login "10.0.0.2:6000" "alice")).1 = true ↔
          afterBob.blacklisted (clock0 + 13 * Second) (FilterIpFromAddr "10.0.0.2:6000")
            = false)) :=
  C8_limiting_cleared_only_at_rollover afterBob (clock0 + 13 * Second)
    (login "10.0.0.2:6000" "alice") rfl (by decide)

/-- C8 (counterexample): in `lateWindow`, limiting and with the unverify
cooldown run out, a Login inside the current window leaves limiting set and a
newcomer is denied although the incremented counter is within the limit; in
`staleLimit`, at a Login after the window has expired, `lastTimeAboveLimit`
is moved to the start of the expired window, which was above the limit, and
limiting is not cleared either. -/
theorem C8_counterexample :
    (lateWindow.limiting = true ∧
      (clock0 + 11 * Second + 200 * Millisecond) - lateWindow.lastTimeAboveLimit
        ≥ lateWindow.unverifyCooldown ∧
      ¬ (wrapInt64 ((lateWindow.rollWindow (clock0 + 11 * Second + 200 * Millisecond)).rateCounter
          + 1) > lateWindow.rateLimit) ∧
      (lateWindow.rollWindow (clock0 + 11 * Second + 200 * Millisecond)).limiting = true ∧
      lateWindow.limitingAfterUpdate (clock0 + 11 * Second + 200 * Millisecond) = true ∧
      (lateWindow.Allow (clock0 + 11 * Second + 200 * Millisecond)
        (login "10.0.0.2:6000" "alice")).1 = false) ∧
    (staleLimit.limiting = true ∧
      (clock0 + 21 * Second + 500 * Millisecond) - staleLimit.lastTimeAboveLimit
        ≥ staleLimit.unverifyCooldown ∧
      ¬ (wrapInt64 ((staleLimit.rollWindow (clock0 + 21 * Second + 500 * Millisecond)).rateCounter
          + 1) > staleLimit.rateLimit) ∧
      (staleLimit.rollWindow (clock0 + 21 * Second + 500 * Millisecond)).limiting = true ∧
      staleLimit.limitingAfterUpdate (clock0 + 21 * Second + 500 * Millisecond) = true ∧
      (staleLimit.Allow (clock0 + 21 * Second + 500 * Millisecond)
        (login "10.0.0.2:6000" "alice")).1 = false) := by
  decide

/-- An entry of `namesList` outlives every `Allow` call. -/
theorem Allow_namesList_kept (l : botFilterConnLimiter) (now : Int) (req : RequestData)
    (ip username : String) (h : l.namesList ip = some username) :
    (l.Allow now req).2.namesList ip = some username := by
  by_cases hreq : req.ReqType = RequestType.Status
  · unfold botFilterConnLimiter.Allow
    rw [if_pos hreq]
    exact h
  · cases hb : l.blacklisted now (FilterIpFromAddr req.Addr) with
    | true =>
      rw [Allow_of_blacklisted l now req hreq hb]
      simpa [rollWindow_namesList] using h
    | false =>
      rw [Allow_of_not_blacklisted l now req hreq hb]
      unfold botFilterConnLimiter.verify
      dsimp only
      rw [rollWindow_namesList]
      split_ifs with hl
      · cases hname : l.namesList (FilterIpFromAddr req.Addr) with
        | none =>
          have hne : ip ≠ FilterIpFromAddr req.Addr := by
            intro he
            rw [he, hname] at h
            exact Option.noConfusion h
          simp [mapSet, hne, h]
        | some u =>
          dsimp only
          split_ifs <;> simpa using h
      · simpa using h

/-- C9 (amended): the limiter never evicts an entry of `namesList`: whatever
`Allow` calls follow, at whatever times, an address that has an entry keeps
it, with the username first recorded. -/
theorem C9_namesList_never_evicted (evs : List (Int × RequestData)) :
    ∀ (l : botFilterConnLimiter) (ip username : String),
      l.namesList ip = some username → (l.run evs).2.namesList ip = some username := by
  induction evs with
  | nil => intro l ip username h; exact h
  | cons e evs ih =>
    intro l ip username h
    simp only [botFilterConnLimiter.run]
    exact ih _ ip username (Allow_namesList_kept l e.1 e.2 ip username h)

/-- C9 (witness): "bob" is still recorded for 10.0.0.1 a year after the three
Logins, whoever logs in then. -/
theorem C9_namesList_never_evicted_witness :
    (afterBob.run [(clock0 + 365 * 24 * 3600 * Second, login "10.0.0.1:5000" "eve"),
      (clock0 + 366 * 24 * 3600 * Second, login "10.0.0.2:6000" "alice")]).2.namesList
        "10.0.0.1" = some "bob" :=
  C9_namesList_never_evicted _ afterBob "10.0.0.1" "bob" (by decide)

/-- C9 (counterexample): no limiter state, reachable or not, and no `Allow`
call is such that an address with an entry in `namesList` has none after the
call. -/
theorem C9_counterexample :
    ¬ ∃ (l : botFilterConnLimiter) (now : Int) (req : RequestData) (ip : String),
      (l.namesList ip).isSome = true ∧ ((l.Allow now req).2.namesList ip).isSome = false := by
  rintro ⟨l, now, req, ip, hsome, hnone⟩
  obtain ⟨username, hu⟩ := Option.isSome_iff_exists.mp hsome
  rw [Allow_namesList_kept l now req ip username hu] at hnone
  exact Bool.noConfusion hnone

/-! ## Theorems: the worker manager -/

theorem foldl_mapSet_apply (ch : Nat) (domains : List String) :
    ∀ (m : String → Option Nat) (k : String),
      (domains.foldl (fun m domain => mapSet m domain ch) m) k
        = if k ∈ domains then some ch else m k := by
  induction domains with
  | nil => intro m k; simp
  | cons d ds ih =>
    intro m k
    rw [List.foldl_cons, ih]
    by_cases hk : k ∈ ds
    · simp [hk]
    · by_cases hkd : k = d
      · simp [hkd, mapSet]
      · simp [hk, hkd, mapSet]

/-- C10 (amended): lookup in the worker manager is by the exact domain
string: after `AddBackend(domains, ch)`, `KnowsDomain(d)` returns true exactly
for the strings `d` that are in `domains` or were known before; a string that
differs from a member of `domains` in letter case is known only on one of
these two grounds. -/
theorem C10_KnowsDomain_after_AddBackend (manager : workerManager) (domains : List String)
    (ch : Nat) (d : String) :
    (manager.AddBackend domains ch).KnowsDomain d = true ↔
      d ∈ domains ∨ manager.KnowsDomain d = true := by
  unfold workerManager.AddBackend workerManager.update workerManager.KnowsDomain
  dsimp only
  rw [foldl_mapSet_apply]
  by_cases hd : d ∈ domains
  · simp [hd]
  · simp [hd]

/-- C10 (counterexample): after `AddBackend(["example.com"], 7)` on a new
manager, `KnowsDomain("EXAMPLE.COM")` is false, although "EXAMPLE.COM" equals
"example.com" up to letter case. -/
theorem C10_counterexample :
    "example.com" ∈ ["example.com"] ∧
      equalUpToCase "EXAMPLE.COM" "example.com" = true ∧
      (NewWorkerManager.AddBackend ["example.com"] 7).KnowsDomain "EXAMPLE.COM" = false := by
  decide

/-- C11: when the config reader returns an error, `Start` returns that same
error, and the manager, its workers list and its domain map, is as before: no
worker was created or registered. -/
theorem C11_Start_returns_reader_error (manager : workerManager) (err : GoError) :
    (manager.Start (Except.error err)).1 = some err ∧
      (manager.Start (Except.error err)).2 = manager ∧
      (manager.Start (Except.error err)).2.workers = manager.workers ∧
      (manager.Start (Except.error err)).2.domains = manager.domains :=
  ⟨rfl, rfl, rfl, rfl⟩

/-! ## Theorems: the connection-state agent -/

/-- C12: the first `State()` call of an agent made by `NewMcServerState`
dials once and returns Online if the dial succeeds, Offline if it fails; in
an agent last probed at `t`, a call before the cooldown has elapsed
(`now - t < cooldown`) dials nothing, returns the cached state and changes
nothing, and a call after it has elapsed dials exactly once, returns by the
dial's outcome and records `now` as the last probe. -/
theorem C12_state_agent_probes_once_per_cooldown (d now : Int) (dialOk : Bool)
    (a : McServerState) (t : Int) (hprobed : a.lastProbe = some t) :
    (((NewMcServerState d).State now dialOk).1
        = (if dialOk then ServerState.Online else ServerState.Offline) ∧
      ((NewMcServerState d).State now dialOk).2.2 = 1 ∧
      ((NewMcServerState d).State now dialOk).2.1.lastProbe = some now ∧
      ((NewMcServerState d).State now dialOk).2.1.cooldown = d) ∧
    (Since now t < a.cooldown → a.State now dialOk = (a.state, a, 0)) ∧
    (Since now t ≥ a.cooldown →
      (a.State now dialOk).1 = (if dialOk then ServerState.Online else ServerState.Offline) ∧
      (a.State now dialOk).2.2 = 1 ∧
      (a.State now dialOk).2.1.state = (a.State now dialOk).1 ∧
      (a.State now dialOk).2.1.lastProbe = some now ∧
      (a.State now dialOk).2.1.cooldown = a.cooldown) := by
  refine ⟨⟨rfl, rfl, rfl, rfl⟩, ?_, ?_⟩
  · intro h
    unfold McServerState.State
    rw [hprobed]
    simp [h]
  · intro h
    unfold McServerState.State
    rw [hprobed]
    simp [not_lt.mpr h, McServerState.probe]

/-- C12 (witness): scenario S6: cooldown of one minute, a failed dial at
`clock0`; thirty seconds later the agent answers Offline from its cache
without dialling, seventy seconds later it dials once more and answers
Online. -/
theorem C12_state_agent_probes_once_per_cooldown_witness :
    probedOffline.State (clock0 + 30 * Second) true = (ServerState.Offline, probedOffline, 0) ∧
    ((probedOffline.State (clock0 + 70 * Second) true).1 = ServerState.Online ∧
      (probedOffline.State (clock0 + 70 * Second) true).2.2 = 1 ∧
      (probedOffline.State (clock0 + 70 * Second) true).2.1.state
        = (probedOffline.State (clock0 + 70 * Second) true).1 ∧
      (probedOffline.State (clock0 + 70 * Second) true).2.1.lastProbe
        = some (clock0 + 70 * Second) ∧
      (probedOffline.State (clock0 + 70 * Second) true).2.1.cooldown
        = probedOffline.cooldown) :=
  ⟨(C12_state_agent_probes_once_per_cooldown (60 * Second) (clock0 + 30 * Second) true
      probedOffline clock0 rfl).2.1 (by decide),
    (C12_state_agent_probes_once_per_cooldown (60 * Second) (clock0 + 70 * Second) true
      probedOffline clock0 rfl).2.2 (by decide)⟩

/-! ## Theorems: the status cache -/

theorem Status_of_stale (c : StatusCache) (now : Int) (b : Backend)
    (hstale : ∀ pk e, c.entry = some (pk, e) → e ≤ now) :
    c.Status now b = c.refresh now b := by
  unfold StatusCache.Status
  cases hentry : c.entry with
  | none => rfl
  | some p =>
    obtain ⟨pk, e⟩ := p
    have := hstale pk e hentry
    simp [not_lt.mpr this]

/-- C13: for a cache that has no unexpired entry, so that `Status()` goes to
the backend: a failure of the dial, of the handshake write, of the status
request write or of the StatusResponse read is returned as the error (the
dial error itself for the dial) and the cache is not updated; once the
StatusResponse has been read, `Status()` returns that packet without error
and stores it, whatever happens to the ping. -/
theorem C13_status_exchange_failures (c : StatusCache) (now : Int) (b : Backend)
    (hstale : ∀ pk e, c.entry = some (pk, e) → e ≤ now) :
    (∀ err, b.dial = some err → c.Status now b = (Except.error err, c, 1)) ∧
    (∀ err, b.dial = none → b.writeHandshake = some err →
      c.Status now b = (Except.error err, c, 1)) ∧
    (∀ err, b.dial = none → b.writeHandshake = none → b.writeRequest = some err →
      c.Status now b = (Except.error err, c, 1)) ∧
    (∀ err, b.dial = none → b.writeHandshake = none → b.writeRequest = none →
      b.readResponse = Except.error err → c.Status now b = (Except.error err, c, 1)) ∧
    (∀ pk, b.dial = none → b.writeHandshake = none → b.writeRequest = none →
      b.readResponse = Except.ok pk →
      c.Status now b = (Except.ok pk, { c with entry := some (pk, now + c.cooldown) }, 1)) := by
  rw [Status_of_stale c now b hstale]
  unfold StatusCache.refresh Backend.exchange
  refine ⟨?_, ?_, ?_, ?_, ?_⟩
  · intro err h1
    simp [h1]
  · intro err h1 h2
    simp [h1, h2]
  · intro err h1 h2 h3
    simp [h1, h2, h3]
  · intro err h1 h2 h3 h4
    simp [h1, h2, h3, h4]
  · intro pk h1 h2 h3 h4
    simp only [h1, h2, h3, h4]
    cases b.writePing <;> cases b.readPing <;> rfl

/-- C13 (witness): a new cache against a backend that refuses the dial, and
against one that closes the connection once it has sent its StatusResponse. -/
theorem C13_status_exchange_failures_witness :
    (NewStatusCache 755 (60 * Second)).Status clock0 refusingBackend
      = (Except.error ⟨"cant create connection", false⟩, NewStatusCache 755 (60 * Second), 1) ∧
    (NewStatusCache 755 (60 * Second)).Status clock0 hangsUpAfterStatus
      = (Except.ok backendStatus,
          { NewStatusCache 755 (60 * Second) with
            entry := some (backendStatus, clock0 + (NewStatusCache 755 (60 * Second)).cooldown) },
          1) :=
  ⟨(C13_status_exchange_failures (NewStatusCache 755 (60 * Second)) clock0 refusingBackend
      (fun _ _ h => Option.noConfusion h)).1 ⟨"cant create connection", false⟩ rfl,
    (C13_status_exchange_failures (NewStatusCache 755 (60 * Second)) clock0 hangsUpAfterStatus
      (fun _ _ h => Option.noConfusion h)).2.2.2.2 backendStatus rfl rfl rfl rfl⟩

theorem Status_of_fresh_entry (c : StatusCache) (now : Int) (b : Backend) (pk : Packet)
    (e : Int) (hentry : c.entry = some (pk, e)) (hnow : now < e) :
    c.Status now b = (Except.ok pk, c, 0) := by
  unfold StatusCache.Status
  rw [hentry]
  simp [hnow]

theorem Status_of_expired_entry (c : StatusCache) (now : Int) (b : Backend) (pk : Packet)
    (e : Int) (hentry : c.entry = some (pk, e)) (hnow : e ≤ now) :
    (c.Status now b).2.2 = 1 := by
  unfold StatusCache.Status StatusCache.refresh
  rw [hentry]
  simp only [not_lt.mpr hnow, if_false]
  cases b.exchange <;> rfl

/-- After a successful `Status()` call the cache holds the packet returned,
expiring one cooldown after the call if the call went to the backend. -/
theorem Status_ok_entry (c : StatusCache) (t0 : Int) (b : Backend) (pk : Packet)
    (hok : (c.Status t0 b).1 = Except.ok pk) :
    ∃ e, (c.Status t0 b).2.1.entry = some (pk, e) ∧
      ((c.Status t0 b).2.2 = 1 → e = t0 + c.cooldown) := by
  unfold StatusCache.Status StatusCache.refresh at hok ⊢
  cases hentry : c.entry with
  | none =>
    rw [hentry] at hok
    simp only at hok ⊢
    cases hex : b.exchange with
    | error err => rw [hex] at hok; simp at hok
    | ok pk' =>
      rw [hex] at hok
      simp only [Except.ok.injEq] at hok
      subst hok
      exact ⟨t0 + c.cooldown, rfl, fun _ => rfl⟩
  | some p =>
    obtain ⟨pk0, e0⟩ := p
    rw [hentry] at hok
    simp only at hok ⊢
    by_cases hlt : t0 < e0
    · simp only [hlt, if_true, Except.ok.injEq] at hok ⊢
      subst hok
      exact ⟨e0, hentry, fun h => by simp at h⟩
    · simp only [hlt, if_false] at hok ⊢
      cases hex : b.exchange with
      | error err => rw [hex] at hok; simp at hok
      | ok pk' =>
        rw [hex] at hok
        simp only [Except.ok.injEq] at hok
        subst hok
        exact ⟨t0 + c.cooldown, rfl, fun _ => rfl⟩

/-- C14: after a `Status()` call at `t0` that went to the backend and
returned the packet `pk` without error, every further call made before the
cooldown has elapsed (`now - t0 < cooldown`) returns `pk` from the cache, with
no exchange and the cache unchanged, and a call made once the cooldown has
elapsed makes exactly one exchange. -/
theorem C14_status_cache_cooldown (c : StatusCache) (t0 : Int) (b : Backend) (pk : Packet)
    (hok : (c.Status t0 b).1 = Except.ok pk)
    (hfetched : (c.Status t0 b).2.2 = 1) :
    (∀ now b', now - t0 < c.cooldown →
      (c.Status t0 b).2.1.Status now b' = (Except.ok pk, (c.Status t0 b).2.1, 0)) ∧
    (∀ now b', now - t0 ≥ c.cooldown → ((c.Status t0 b).2.1.Status now b').2.2 = 1) := by
  obtain ⟨e, hentry, he⟩ := Status_ok_entry c t0 b pk hok
  have hexp := he hfetched
  refine ⟨?_, ?_⟩
  · intro now b' hnow
    exact Status_of_fresh_entry _ now b' pk e hentry (by omega)
  · intro now b' hnow
    exact Status_of_expired_entry _ now b' pk e hentry (by omega)

/-- C14 (witness): scenario S2: cooldown of one minute, the status fetched at
`clock0`; ten milliseconds later the packet comes from the cache, whatever
the backend would do, and one minute later the backend is asked again. -/
theorem C14_status_cache_cooldown_witness :
    cachedStatus.Status (clock0 + 10 * Millisecond) refusingBackend
      = (Except.ok backendStatus, cachedStatus, 0) ∧
    (cachedStatus.Status (clock0 + 60 * Second) healthyBackend).2.2 = 1 :=
  ⟨(C14_status_cache_cooldown (NewStatusCache 755 (60 * Second)) clock0 healthyBackend
      backendStatus rfl rfl).1 (clock0 + 10 * Millisecond) refusingBackend (by decide),
    (C14_status_cache_cooldown (NewStatusCache 755 (60 * Second)) clock0 healthyBackend
      backendStatus rfl rfl).2 (clock0 + 60 * Second) healthyBackend (by decide)⟩

/-! ## Theorems: backend configuration -/

theorem fillWorkerConfig_flags (env : ConfigEnv) (cfg : ServerConfig)
    (workerCfg : BackendWorkerConfig) :
    (fillWorkerConfig env cfg workerCfg).StateOption = workerCfg.StateOption ∧
      (fillWorkerConfig env cfg workerCfg).OldRealIp = workerCfg.OldRealIp ∧
      (fillWorkerConfig env cfg workerCfg).NewRealIP = workerCfg.NewRealIP ∧
      (fillWorkerConfig env cfg workerCfg).RealIPKey = workerCfg.RealIPKey := by
  unfold fillWorkerConfig
  dsimp only
  split_ifs <;> exact ⟨rfl, rfl, rfl, rfl⟩

/-- The RealIP part of a config that `ServerToBackendConfig` returns without
error: the state option and the two flags are those of the input, and with
`NewRealIP` set the key is the one `loadRealIPKey` gave. -/
theorem ServerToBackendConfig_ok_flags (env : ConfigEnv) (cfg : ServerConfig)
    (w : BackendWorkerConfig) (hok : ServerToBackendConfig env cfg = Except.ok w) :
    w.StateOption = NewStateOption cfg.CheckStateOption ∧
      w.OldRealIp = cfg.OldRealIP ∧
      w.NewRealIP = cfg.NewRealIP ∧
      (cfg.NewRealIP = true → loadRealIPKey env cfg = Except.ok w.RealIPKey) := by
  unfold ServerToBackendConfig at hok
  cases hname : backendName cfg with
  | error f => rw [hname] at hok; exact Except.noConfusion hok
  | ok name =>
    rw [hname] at hok
    dsimp only at hok
    by_cases hnew : cfg.NewRealIP = true
    · rw [if_pos hnew] at hok
      cases hkey : loadRealIPKey env cfg with
      | error f => rw [hkey] at hok; exact Except.noConfusion hok
      | ok privateKey =>
        rw [hkey] at hok
        simp only [Except.ok.injEq] at hok
        subst hok
        obtain ⟨h1, h2, h3, h4⟩ := fillWorkerConfig_flags env cfg _
        rw [h1, h2, h3, h4]
        exact ⟨rfl, rfl, hnew.symm, fun _ => rfl⟩
    · rw [if_neg hnew] at hok
      simp only [Except.ok.injEq] at hok
      subst hok
      obtain ⟨h1, h2, h3, _⟩ := fillWorkerConfig_flags env cfg _
      rw [h1, h2, h3]
      exact ⟨rfl, rfl, rfl, fun h => absurd h hnew⟩

/-- C15: `NewStateOption` returns `ALWAYS_ONLINE` exactly for "online",
`ALWAYS_OFFLINE` exactly for "offline" and `CACHE` for every other string, the
empty one included; and a config returned by `ServerToBackendConfig` has
`StateOption = NewStateOption(cfg.CheckStateOption)`. -/
theorem C15_NewStateOption (env : ConfigEnv) (cfg : ServerConfig) (w : BackendWorkerConfig)
    (hok : ServerToBackendConfig env cfg = Except.ok w) :
    (∀ s, NewStateOption s = ALWAYS_ONLINE ↔ s = "online") ∧
      (∀ s, NewStateOption s = ALWAYS_OFFLINE ↔ s = "offline") ∧
      (∀ s, NewStateOption s = CACHE ↔ (s ≠ "online" ∧ s ≠ "offline")) ∧
      NewStateOption "" = CACHE ∧
      w.StateOption = NewStateOption cfg.CheckStateOption := by
  refine ⟨?_, ?_, ?_, by decide, (ServerToBackendConfig_ok_flags env cfg w hok).1⟩
  · intro s
    unfold NewStateOption
    by_cases h1 : s = "online"
    · simp [h1]
    · by_cases h2 : s = "offline"
      · subst h2
        simp [ALWAYS_ONLINE, ALWAYS_OFFLINE]
      · simp [h1, h2, ALWAYS_ONLINE, CACHE]
  · intro s
    unfold NewStateOption
    by_cases h1 : s = "online"
    · subst h1
      simp [ALWAYS_ONLINE, ALWAYS_OFFLINE]
    · by_cases h2 : s = "offline"
      · simp [h2]
      · simp [h1, h2, ALWAYS_OFFLINE, CACHE]
  · intro s
    unfold NewStateOption
    by_cases h1 : s = "online"
    · simp [h1, ALWAYS_ONLINE, CACHE]
    · by_cases h2 : s = "offline"
      · subst h2
        simp [ALWAYS_OFFLINE, CACHE]
      · simp [h1, h2]

/-- C16 (amended): a config that `ServerToBackendConfig` returns without error
carries both RealIP flags of the input unchanged: `OldRealIp` is the input's
`useRealIPv2.4` and `NewRealIP` is the input's `useRealIPv2.5`; so when the
input sets both, the result has `NewRealIP = true` and `OldRealIp = true`. -/
theorem C16_RealIP_flags_copied (env : ConfigEnv) (cfg : ServerConfig) (w : BackendWorkerConfig)
    (hok : ServerToBackendConfig env cfg = Except.ok w) :
    w.OldRealIp = cfg.OldRealIP ∧ w.NewRealIP = cfg.NewRealIP ∧
      (cfg.OldRealIP = true → cfg.NewRealIP = true →
        w.NewRealIP = true ∧ w.OldRealIp = true) := by
  obtain ⟨_, h2, h3, _⟩ := ServerToBackendConfig_ok_flags env cfg w hok
  exact ⟨h2, h3, fun ho hn => ⟨by rw [h3, hn], by rw [h2, ho]⟩⟩

/-- C16 (counterexample): for a config that sets both RealIP flags and whose
key file is read, `ServerToBackendConfig` returns without error a config with
both `OldRealIp` and `NewRealIP` true. -/
theorem C16_counterexample :
    bothRealIPConfig.OldRealIP = true ∧ bothRealIPConfig.NewRealIP = true ∧
      (ServerToBackendConfig brokenGeneratorEnv bothRealIPConfig).toOption.map
        (fun w => (w.OldRealIp, w.NewRealIP)) = some (true, true) := by
  decide

/-- C17 (the code at the failing input): with `useRealIPv2.5` set, no key file,
no key generated before and a key generator that fails,
`ServerToBackendConfig` returns without error a config with `NewRealIP = true`
and a nil `RealIPKey`. -/
theorem C17_nil_key_when_generation_fails :
    missingKeyConfig.NewRealIP = true ∧
      (ServerToBackendConfig brokenGeneratorEnv missingKeyConfig).toOption.map
        (fun w => (w.NewRealIP, w.RealIPKey)) = some (true, none) := by
  decide

/-- Whenever the key generator works, a config returned without error for an
input with `NewRealIP` set has a key. -/
theorem RealIPKey_present_when_generator_works (env : ConfigEnv) (cfg : ServerConfig)
    (w : BackendWorkerConfig) (k : Nat)
    (hnew : cfg.NewRealIP = true) (hgen : env.GenerateKey = Except.ok k)
    (hok : ServerToBackendConfig env cfg = Except.ok w) :
    w.NewRealIP = true ∧ w.RealIPKey.isSome = true := by
  obtain ⟨_, _, h3, h4⟩ := ServerToBackendConfig_ok_flags env cfg w hok
  refine ⟨by rw [h3, hnew], ?_⟩
  have hkey := h4 hnew
  unfold loadRealIPKey at hkey
  cases hread : ReadPrivateKey env cfg.RealIPKey with
  | ok privateKey =>
    rw [hread] at hkey
    simp only [Except.ok.injEq] at hkey
    rw [← hkey]
    rfl
  | error err =>
    rw [hread] at hkey
    dsimp only at hkey
    by_cases hne : err.isNotExist = true
    · rw [if_pos hne] at hkey
      cases hchk : CheckExistingGeneratedKey env cfg with
      | error f => rw [hchk] at hkey; exact Except.noConfusion hkey
      | ok p =>
        obtain ⟨key, ok⟩ := p
        rw [hchk] at hkey
        dsimp only at hkey
        cases ok with
        | true =>
          simp only [if_true, Except.ok.injEq] at hkey
          subst hkey
          unfold CheckExistingGeneratedKey at hchk
          cases hd : cfg.Domains with
          | nil => rw [hd] at hchk; exact Except.noConfusion hchk
          | cons domain rest =>
            rw [hd] at hchk
            dsimp only at hchk
            split_ifs at hchk
            · simp at hchk
            · split at hchk
              · simp at hchk
              · simp only [Except.ok.injEq, Prod.mk.injEq] at hchk
                rw [← hchk.1]
                rfl
        | false =>
          simp only [Bool.false_eq_true, if_false] at hkey
          unfold GenerateKeys at hkey
          rw [hgen] at hkey
          dsimp only at hkey
          cases hd : cfg.Domains with
          | nil => rw [hd] at hkey; exact Except.noConfusion hkey
          | cons domain rest =>
            rw [hd] at hkey
            simp only [Except.ok.injEq] at hkey
            rw [← hkey]
            rfl
    · rw [if_neg hne] at hkey
      exact Except.noConfusion hkey

/-- C15 (witness): the config converted from `bothRealIPConfig`, whose
`CheckStateOption` is empty. -/
theorem C15_NewStateOption_witness :
    NewStateOption "" = CACHE ∧
      bothRealIPWorker.StateOption = NewStateOption bothRealIPConfig.CheckStateOption :=
  (C15_NewStateOption brokenGeneratorEnv bothRealIPConfig bothRealIPWorker rfl).2.2.2

/-- C16 (witness): the config converted from `bothRealIPConfig`. -/
theorem C16_RealIP_flags_copied_witness :
    bothRealIPWorker.OldRealIp = bothRealIPConfig.OldRealIP ∧
      bothRealIPWorker.NewRealIP = bothRealIPConfig.NewRealIP ∧
      (bothRealIPConfig.OldRealIP = true → bothRealIPConfig.NewRealIP = true →
        bothRealIPWorker.NewRealIP = true ∧ bothRealIPWorker.OldRealIp = true) :=
  C16_RealIP_flags_copied brokenGeneratorEnv bothRealIPConfig bothRealIPWorker rfl

/-! ## Theorems: the limiter key, the counter, the absolute limiter's step -/

theorem Split_host_port (host port : List Char) (h : ':' ∉ host) :
    Split ':' (host ++ ':' :: port) = host :: Split ':' port := by
  induction host with
  | nil => simp [Split]
  | cons c cs ih =>
    have hc : c ≠ ':' := fun hc => h (by rw [hc]; exact List.mem_cons_self _ _)
    have hcs : ':' ∉ cs := fun hm => h (List.mem_cons_of_mem _ hm)
    simp [Split, hc, ih hcs]

/-- For an address `host:port` whose host holds no colon, as every IPv4
address does, `FilterIpFromAddr` returns the host. -/
theorem FilterIpFromAddr_host_without_colon (host port : String) (h : ':' ∉ host.data) :
    FilterIpFromAddr (host ++ ":" ++ port) = host := by
  unfold FilterIpFromAddr
  have hdata : (host ++ ":" ++ port).data = host.data ++ ':' :: port.data := by
    simp [String.data_append]
  rw [hdata, Split_host_port host.data port.data h]

/-- C18 (the code at the failing input): for an IPv4 address the host is
returned, but the bracketed IPv6 addresses `[::1]:25565` and `[::2]:25565`
both give "[", and `[2001:db8::1]:25565` and `[2001:db8::2]:25565` both give
"[2001": different hosts, one limiter key. -/
theorem C18_FilterIpFromAddr_ipv6 :
    FilterIpFromAddr "203.0.113.5:54321" = "203.0.113.5" ∧
      FilterIpFromAddr "[::1]:25565" = "[" ∧
      FilterIpFromAddr "[::2]:25565" = "[" ∧
      FilterIpFromAddr "[2001:db8::1]:25565" = "[2001" ∧
      FilterIpFromAddr "[2001:db8::2]:25565" = "[2001" := by
  decide

/-- C19 (amended): the counter increment precedes the blacklist check: a Login
that is denied because its address has an unexpired blacklist entry raises the
window counter by one, from 0 if the window has just been reset, and leaves
the limiter otherwise as the window rollover left it. -/
theorem C19_blacklisted_login_is_counted (l : botFilterConnLimiter) (now : Int)
    (req : RequestData)
    (hreq : req.ReqType = RequestType.Login)
    (hb : l.blacklisted now (FilterIpFromAddr req.Addr) = true) :
    (l.Allow now req).1 = false ∧
      (l.Allow now req).2.rateCounter = wrapInt64 ((l.rollWindow now).rateCounter + 1) ∧
      (Since now l.rateStartTime ≥ l.rateCooldown → (l.Allow now req).2.rateCounter = 1) ∧
      (Since now l.rateStartTime < l.rateCooldown → l.rateCounter + 1 < 2 ^ 63 →
        -(2 ^ 63) ≤ l.rateCounter + 1 → (l.Allow now req).2.rateCounter = l.rateCounter + 1) := by
  rw [Allow_of_blacklisted l now req (by rw [hreq]; decide) hb]
  refine ⟨rfl, rfl, ?_, ?_⟩
  · intro hexp
    have hzero : (l.rollWindow now).rateCounter = 0 := by
      unfold botFilterConnLimiter.rollWindow
      rw [if_pos hexp]
    simp only [hzero]
    decide
  · intro hin h1 h2
    rw [rollWindow_of_not_expired l now hin]
    simp only
    unfold wrapInt64
    omega

/-- C19 (witness): "bob" again from the blacklisted 10.0.0.1, inside the
window: denied, and the counter goes from 4 to 5. -/
theorem C19_blacklisted_login_is_counted_witness :
    (afterEve.Allow (clock0 + Second + 800 * Millisecond) (login "10.0.0.1:5000" "bob")).1
        = false ∧
      (afterEve.Allow (clock0 + Second + 800 * Millisecond)
        (login "10.0.0.1:5000" "bob")).2.rateCounter = afterEve.rateCounter + 1 :=
  ⟨(C19_blacklisted_login_is_counted afterEve (clock0 + Second + 800 * Millisecond)
      (login "10.0.0.1:5000" "bob") rfl (by decide)).1,
    (C19_blacklisted_login_is_counted afterEve (clock0 + Second + 800 * Millisecond)
      (login "10.0.0.1:5000" "bob") rfl (by decide)).2.2.2 (by decide) (by decide) (by decide)⟩

/-- C19 (counterexample): in `afterEve`, where 10.0.0.1 is blacklisted and the
window counter is 4, a Login from 10.0.0.1 inside the window is denied on the
blacklist and the counter is 5 afterwards. -/
theorem C19_counterexample :
    afterEve.blacklisted (clock0 + Second + 800 * Millisecond) "10.0.0.1" = true ∧
      Since (clock0 + Second + 800 * Millisecond) afterEve.rateStartTime < afterEve.rateCooldown ∧
      (afterEve.Allow (clock0 + Second + 800 * Millisecond) (login "10.0.0.1:5000" "bob")).1
        = false ∧
      afterEve.rateCounter = 4 ∧
      (afterEve.Allow (clock0 + Second + 800 * Millisecond)
        (login "10.0.0.1:5000" "bob")).2.rateCounter = 5 := by
  decide

theorem abs_counter_step (r : absoluteConnlimiter) (now : Int) (req : RequestData)
    (hls : r.limitStatus = true) (h0 : 0 ≤ r.rateCounter) (h1 : r.rateCounter ≤ r.rateLimit) :
    (r.Allow now req).2.limitStatus = true ∧ (r.Allow now req).2.rateLimit = r.rateLimit ∧
      0 ≤ (r.Allow now req).2.rateCounter ∧ (r.Allow now req).2.rateCounter ≤ r.rateLimit := by
  unfold absoluteConnlimiter.Allow
  dsimp only
  split_ifs <;> simp_all <;> omega

theorem abs_counter_after (evs : List (Int × RequestData)) :
    ∀ r : absoluteConnlimiter, r.limitStatus = true → 0 ≤ r.rateCounter →
      r.rateCounter ≤ r.rateLimit →
      0 ≤ (r.after evs).rateCounter ∧ (r.after evs).rateCounter ≤ r.rateLimit := by
  induction evs with
  | nil => intro r _ h0 h1; exact ⟨h0, h1⟩
  | cons e evs ih =>
    intro r hls h0 h1
    obtain ⟨hls', hlim', h0', h1'⟩ := abs_counter_step r e.1 e.2 hls h0 h1
    have := ih (r.Allow e.1 e.2).2 hls' h0' (by rw [hlim']; exact h1')
    rw [hlim'] at this
    exact this

/-- C20: with `limitStatus = true`, `Allow` at `now` first resets the counter
to 0 and the window start to `now` if `now - rateStartTime >= rateCooldown`;
then, if the counter is below `rateLimit`, it returns true and the counter
goes up by exactly one, and otherwise it returns false and the counter stays;
hence a counter within `0..rateLimit` stays there over any sequence of calls,
and it is so from `NewAbsConnLimiter` on when `rateLimit >= 0`. -/
theorem C20_abs_Allow_step (r : absoluteConnlimiter) (now : Int) (req : RequestData)
    (hls : r.limitStatus = true) :
    ((r.Allow now req).2.rateStartTime
        = if now - r.rateStartTime ≥ r.rateCooldown then now else r.rateStartTime) ∧
    ((if now - r.rateStartTime ≥ r.rateCooldown then 0 else r.rateCounter) < r.rateLimit →
      (r.Allow now req).1 = true ∧
      (r.Allow now req).2.rateCounter
        = (if now - r.rateStartTime ≥ r.rateCooldown then 0 else r.rateCounter) + 1) ∧
    (¬ (if now - r.rateStartTime ≥ r.rateCooldown then 0 else r.rateCounter) < r.rateLimit →
      (r.Allow now req).1 = false ∧
      (r.Allow now req).2.rateCounter
        = (if now - r.rateStartTime ≥ r.rateCooldown then 0 else r.rateCounter)) ∧
    (∀ evs, 0 ≤ r.rateCounter → r.rateCounter ≤ r.rateLimit →
      0 ≤ (r.after evs).rateCounter ∧ (r.after evs).rateCounter ≤ r.rateLimit) ∧
    (∀ (ratelimit cooldown : Int) evs, 0 ≤ ratelimit →
      0 ≤ ((NewAbsConnLimiter ratelimit cooldown true).after evs).rateCounter ∧
      ((NewAbsConnLimiter ratelimit cooldown true).after evs).rateCounter ≤ ratelimit) := by
  refine ⟨?_, ?_, ?_, ?_, ?_⟩
  · unfold absoluteConnlimiter.Allow Since
    dsimp only
    split_ifs <;> simp_all
  · unfold absoluteConnlimiter.Allow Since
    dsimp only
    split_ifs <;> simp_all
  · unfold absoluteConnlimiter.Allow Since
    dsimp only
    split_ifs <;> simp_all
  · intro evs h0 h1
    exact abs_counter_after evs r hls h0 h1
  · intro ratelimit cooldown evs hl
    exact abs_counter_after evs (NewAbsConnLimiter ratelimit cooldown true) rfl
      (le_refl _) hl

/-- C20 (witness): the limiter of two requests per ten seconds over the four
Logins of `burstLogins`, and its third call. -/
theorem C20_abs_Allow_step_witness :
    (((NewAbsConnLimiter 2 (10 * Second) true).after burstLogins).rateCounter = 2) ∧
      (0 ≤ ((NewAbsConnLimiter 2 (10 * Second) true).after burstLogins).rateCounter ∧
        ((NewAbsConnLimiter 2 (10 * Second) true).after burstLogins).rateCounter ≤ 2) :=
  ⟨by decide,
    (C20_abs_Allow_step (NewAbsConnLimiter 2 (10 * Second) true) clock0
      (login "10.0.0.1:5000" "bob") rfl).2.2.2.1 burstLogins (by decide) (by decide)⟩

/-! ## Theorems: the absolute limiter without `limitStatus` -/

theorem abs_Allow_unlimited (r : absoluteConnlimiter) (now : Int) (req : RequestData)
    (hls : r.limitStatus = false) :
    r.Allow now req =
      (true, if Since now r.rateStartTime ≥ r.rateCooldown then
        { r with rateCounter := 0, rateStartTime := now } else r) := by
  unfold absoluteConnlimiter.Allow
  dsimp only
  split_ifs <;> simp_all

theorem abs_run_unlimited (evs : List (Int × RequestData)) :
    ∀ r : absoluteConnlimiter, r.limitStatus = false →
      allTrue (r.run evs) = true ∧
        ((r.after evs).rateCounter = r.rateCounter ∨ (r.after evs).rateCounter = 0) := by
  induction evs with
  | nil => intro r _; exact ⟨rfl, Or.inl rfl⟩
  | cons e evs ih =>
    intro r hls
    have hstep := abs_Allow_unlimited r e.1 e.2 hls
    have hls' : (r.Allow e.1 e.2).2.limitStatus = false := by
      rw [hstep]
      dsimp only
      split_ifs <;> exact hls
    obtain ⟨h1, h2⟩ := ih (r.Allow e.1 e.2).2 hls'
    have hc : (r.Allow e.1 e.2).2.rateCounter = r.rateCounter ∨
        (r.Allow e.1 e.2).2.rateCounter = 0 := by
      rw [hstep]
      dsimp only
      split_ifs
      · exact Or.inr rfl
      · exact Or.inl rfl
    refine ⟨?_, ?_⟩
    · simp only [absoluteConnlimiter.run, allTrue, List.all_cons] at h1 ⊢
      rw [hstep] at h1 ⊢
      simpa using h1
    · simp only [absoluteConnlimiter.after]
      rcases h2 with h2 | h2
      · rw [h2]; exact hc
      · exact Or.inr h2

/-- C21: with `limitStatus = false`, `Allow` returns true for every request,
a Status or a Login alike, and never increments the counter: after the call
the counter is what it was, or 0 when the window was reset; so over any
sequence of requests, however many in one window, every answer is true, and
the counter of a limiter built by `NewAbsConnLimiter` stays 0. -/
theorem C21_abs_unlimited_allows_all (r : absoluteConnlimiter) (now : Int) (req : RequestData)
    (hls : r.limitStatus = false) :
    (r.Allow now req).1 = true ∧
      (r.Allow now req).2.rateCounter
        = (if now - r.rateStartTime ≥ r.rateCooldown then 0 else r.rateCounter) ∧
      (∀ evs, allTrue (r.run evs) = true ∧
        ((r.after evs).rateCounter = r.rateCounter ∨ (r.after evs).rateCounter = 0)) ∧
      (∀ (ratelimit cooldown : Int) evs,
        allTrue ((NewAbsConnLimiter ratelimit cooldown false).run evs) = true ∧
        ((NewAbsConnLimiter ratelimit cooldown false).after evs).rateCounter = 0) := by
  refine ⟨?_, ?_, fun evs => abs_run_unlimited evs r hls, ?_⟩
  · rw [abs_Allow_unlimited r now req hls]
  · rw [abs_Allow_unlimited r now req hls]
    unfold Since
    dsimp only
    split_ifs <;> rfl
  · intro ratelimit cooldown evs
    obtain ⟨h1, h2⟩ := abs_run_unlimited evs (NewAbsConnLimiter ratelimit cooldown false) rfl
    refine ⟨h1, ?_⟩
    rcases h2 with h2 | h2
    · rw [h2]; rfl
    · exact h2

/-- C21 (witness): a limiter of one request per ten seconds with
`limitStatus = false`, over five requests within one second. -/
theorem C21_abs_unlimited_allows_all_witness :
    allTrue ((NewAbsConnLimiter 1 (10 * Second) false).run mixedRequests) = true ∧
      ((NewAbsConnLimiter 1 (10 * Second) false).after mixedRequests).rateCounter = 0 :=
  (C21_abs_unlimited_allows_all (NewAbsConnLimiter 1 (10 * Second) false) clock0
    (status "10.0.0.2:6000") rfl).2.2.2 1 (10 * Second) mixedRequests

/-! ## Theorems: an expired blacklist entry -/

theorem rollWindow_with_blackList (l : botFilterConnLimiter) (now : Int)
    (b : String → Option Int) :
    botFilterConnLimiter.rollWindow { l with blackList := b } now
      = { l.rollWindow now with blackList := b } := by
  unfold botFilterConnLimiter.rollWindow
  dsimp only
  split_ifs <;> rfl

theorem mapDelete_mapDelete {β : Type} (m : String → Option β) (k : String) :
    mapDelete (mapDelete m k) k = mapDelete m k := by
  funext k'
  unfold mapDelete
  split_ifs <;> rfl

theorem blacklisted_of_expired (l : botFilterConnLimiter) (now t : Int) (ip : String)
    (hentry : l.blackList ip = some t) (hexp : now - t ≥ l.listClearTime) :
    l.blacklisted now ip = false := by
  unfold botFilterConnLimiter.blacklisted
  rw [hentry]
  simp only [Since, decide_eq_false_iff_not, not_lt]
  exact hexp

/-- The blacklist entry that the username check leaves for `ip`, when none was
there: `now` on a username mismatch while limiting, none otherwise. -/
theorem verify_blackList (l : botFilterConnLimiter) (now : Int) (req : RequestData)
    (ip : String) (hnone : l.blackList ip = none) :
    ((botFilterConnLimiter.verify l now req ip).2.blackList ip = some now ↔
      ((l.limiting || decide (l.rateCounter > l.rateLimit)) = true ∧
        ∃ username, l.namesList ip = some username ∧ username ≠ req.Username)) ∧
    ((botFilterConnLimiter.verify l now req ip).2.blackList ip = none ∨
      (botFilterConnLimiter.verify l now req ip).2.blackList ip = some now) := by
  unfold botFilterConnLimiter.verify
  dsimp only
  cases hlim : (l.limiting || decide (l.rateCounter > l.rateLimit)) with
  | false => simp [hnone]
  | true =>
    simp only [if_true]
    cases hname : l.namesList ip with
    | none => simp [hnone]
    | some u =>
      by_cases hu : u = req.Username
      · simp [hu, hnone]
      · simp [hu, mapSet]

/-- C22: with `blackList[ip] = t` and a Login from `ip` at `now` with
`now - t >= listClearTime`, `Allow` does exactly what it does on the limiter
with the entry removed: the request is allowed when limiting is not active
after the counter update, and `ip` is in the blacklist afterwards, with
timestamp `now`, only if limiting is active and `namesList` holds another
username for it; otherwise it is not in the blacklist. -/
theorem C22_expired_entry_removed (l : botFilterConnLimiter) (now t : Int)
    (req : RequestData) (ip : String)
    (hentry : l.blackList ip = some t)
    (hreq : req.ReqType = RequestType.Login)
    (hip : FilterIpFromAddr req.Addr = ip)
    (hexp : now - t ≥ l.listClearTime) :
    l.Allow now req
        = botFilterConnLimiter.Allow { l with blackList := mapDelete l.blackList ip } now req ∧
      (l.limitingAfterUpdate now = false →
        (l.Allow now req).1 = true ∧ (l.Allow now req).2.blackList ip = none) ∧
      ((l.Allow now req).2.blackList ip = some now ↔
        (l.limitingAfterUpdate now = true ∧
          ∃ username, l.namesList ip = some username ∧ username ≠ req.Username)) ∧
      ((l.Allow now req).2.blackList ip = none ∨
        (l.Allow now req).2.blackList ip = some now) := by
  subst hip
  have hns : req.ReqType ≠ RequestType.Status := by rw [hreq]; decide
  have hb := blacklisted_of_expired l now t _ hentry hexp
  have hb' : botFilterConnLimiter.blacklisted
      { l with blackList := mapDelete l.blackList (FilterIpFromAddr req.Addr) } now
      (FilterIpFromAddr req.Addr) = false := by
    apply blacklisted_of_none
    simp [mapDelete]
  have hdel : mapDelete l.blackList (FilterIpFromAddr req.Addr) (FilterIpFromAddr req.Addr)
      = none := by
    simp [mapDelete]
  obtain ⟨hv1, hv2⟩ := verify_blackList
    { l.rollWindow now with
      rateCounter := wrapInt64 ((l.rollWindow now).rateCounter + 1)
      blackList := mapDelete l.blackList (FilterIpFromAddr req.Addr) }
    now req (FilterIpFromAddr req.Addr) hdel
  have hright : (l.limitingAfterUpdate now = true ∧
        ∃ username, l.namesList (FilterIpFromAddr req.Addr) = some username ∧
          username ≠ req.Username) ↔
      (((l.rollWindow now).limiting ||
          decide (wrapInt64 ((l.rollWindow now).rateCounter + 1) > (l.rollWindow now).rateLimit))
        = true ∧
        ∃ username, (l.rollWindow now).namesList (FilterIpFromAddr req.Addr) = some username ∧
          username ≠ req.Username) := by
    rw [rollWindow_namesList]
    rfl
  refine ⟨?_, ?_, ?_, ?_⟩
  · rw [Allow_of_not_blacklisted l now req hns hb, Allow_of_not_blacklisted _ now req hns hb']
    dsimp only
    rw [rollWindow_with_blackList l now (mapDelete l.blackList (FilterIpFromAddr req.Addr)),
      mapDelete_mapDelete]
  · intro hlim
    rw [Allow_of_not_blacklisted l now req hns hb]
    refine ⟨?_, ?_⟩
    · unfold botFilterConnLimiter.limitingAfterUpdate at hlim
      unfold botFilterConnLimiter.verify
      simp [hlim]
    · rcases hv2 with h | h
      · exact h
      · have := (hright.mpr (hv1.mp h)).1
        rw [hlim] at this
        exact absurd this (by decide)
  · rw [Allow_of_not_blacklisted l now req hns hb]
    exact hv1.trans hright.symm
  · rw [Allow_of_not_blacklisted l now req hns hb]
    exact hv2

/-- C22 (witness): an hour after "eve" got 10.0.0.1 blacklisted for fifteen
minutes, "bob" logs in from it: the entry is gone and, limiting having been
cleared, the Login is allowed. -/
theorem C22_expired_entry_removed_witness :
    afterEve.Allow (clock0 + 3600 * Second) (login "10.0.0.1:5000" "bob")
        = botFilterConnLimiter.Allow
            { afterEve with blackList := mapDelete afterEve.blackList "10.0.0.1" }
            (clock0 + 3600 * Second) (login "10.0.0.1:5000" "bob") ∧
      ((afterEve.Allow (clock0 + 3600 * Second) (login "10.0.0.1:5000" "bob")).1 = true ∧
        (afterEve.Allow (clock0 + 3600 * Second)
          (login "10.0.0.1:5000" "bob")).2.blackList "10.0.0.1" = none) :=
  ⟨(C22_expired_entry_removed afterEve (clock0 + 3600 * Second)
      (clock0 + Second + 700 * Millisecond) (login "10.0.0.1:5000" "bob") "10.0.0.1"
      (by decide) rfl (by decide) (by decide)).1,
    (C22_expired_entry_removed afterEve (clock0 + 3600 * Second)
      (clock0 + Second + 700 * Millisecond) (login "10.0.0.1:5000" "bob") "10.0.0.1"
      (by decide) rfl (by decide) (by decide)).2.1 (by decide)⟩

/-! ## Theorems: the domain map and the workers -/

theorem foldl_mapDelete_apply (domains : List String) :
    ∀ (m : String → Option Nat) (k : String),
      (domains.foldl (fun m domain => mapDelete m domain) m) k
        = if k ∈ domains then none else m k := by
  induction domains with
  | nil => intro m k; simp
  | cons d ds ih =>
    intro m k
    rw [List.foldl_cons, ih]
    by_cases hk : k ∈ ds
    · simp [hk]
    · by_cases hkd : k = d
      · simp [hkd, mapDelete]
      · simp [hk, hkd, mapDelete]

theorem AddBackend_domains (manager : workerManager) (domains : List String) (ch : Nat)
    (d : String) :
    (manager.AddBackend domains ch).domains d
      = if d ∈ domains then some ch else manager.domains d := by
  unfold workerManager.AddBackend workerManager.update
  dsimp only
  rw [foldl_mapSet_apply]

theorem RemoveBackend_domains (manager : workerManager) (domains : List String) (d : String) :
    (manager.RemoveBackend domains).domains d
      = if d ∈ domains then none else manager.domains d := by
  unfold workerManager.RemoveBackend workerManager.update
  dsimp only
  rw [foldl_mapDelete_apply]

/-- C23: after `AddBackend(domains, ch)` every domain of the list is known
and mapped to `ch`, whatever it was mapped to before; after
`RemoveBackend(domains)` no domain of the list is known; in both cases a
domain outside the list keeps its mapping; and `RemoveBackend(domains)` after
`AddBackend(domains, ch)` gives back the original map when none of the
domains was in it. -/
theorem C23_AddBackend_RemoveBackend (manager : workerManager) (domains : List String)
    (ch : Nat) :
    (∀ d ∈ domains, (manager.AddBackend domains ch).KnowsDomain d = true ∧
      (manager.AddBackend domains ch).domains d = some ch) ∧
    (∀ d ∈ domains, (manager.RemoveBackend domains).KnowsDomain d = false) ∧
    (∀ d, d ∉ domains →
      (manager.AddBackend domains ch).domains d = manager.domains d ∧
      (manager.RemoveBackend domains).domains d = manager.domains d) ∧
    ((∀ d ∈ domains, manager.KnowsDomain d = false) →
      ((manager.AddBackend domains ch).RemoveBackend domains).domains = manager.domains) := by
  refine ⟨?_, ?_, ?_, ?_⟩
  · intro d hd
    unfold workerManager.KnowsDomain
    rw [AddBackend_domains, if_pos hd]
    exact ⟨rfl, rfl⟩
  · intro d hd
    unfold workerManager.KnowsDomain
    rw [RemoveBackend_domains, if_pos hd]
    rfl
  · intro d hd
    rw [AddBackend_domains, RemoveBackend_domains, if_neg hd, if_neg hd]
    exact ⟨rfl, rfl⟩
  · intro hnew
    funext d
    rw [RemoveBackend_domains, AddBackend_domains]
    by_cases hd : d ∈ domains
    · rw [if_pos hd]
      have := hnew d hd
      unfold workerManager.KnowsDomain at this
      cases hm : manager.domains d with
      | none => rfl
      | some c => rw [hm] at this; exact Bool.noConfusion this
    · rw [if_neg hd, if_neg hd]

/-- C23 (witness): "new.example" and "old.example" are added on channel 9 to
a manager that maps "old.example" to channel 3, and "new.example" is added and
removed again. -/
theorem C23_AddBackend_RemoveBackend_witness :
    ((sampleManager.AddBackend ["new.example", "old.example"] 9).KnowsDomain "old.example" = true ∧
      (sampleManager.AddBackend ["new.example", "old.example"] 9).domains "old.example"
        = some 9) ∧
    (sampleManager.RemoveBackend ["new.example", "old.example"]).KnowsDomain "old.example"
      = false ∧
    ((sampleManager.AddBackend ["new.example"] 9).RemoveBackend ["new.example"]).domains
      = sampleManager.domains :=
  ⟨(C23_AddBackend_RemoveBackend sampleManager ["new.example", "old.example"] 9).1
      "old.example" (by decide),
    (C23_AddBackend_RemoveBackend sampleManager ["new.example", "old.example"] 9).2.1
      "old.example" (by decide),
    (C23_AddBackend_RemoveBackend sampleManager ["new.example"] 9).2.2.2
      (by decide)⟩

theorem update_workers (manager : workerManager) :
    manager.update.workers = manager.workers.map (fun wrk => wrk.Update manager.domains) ∧
      manager.update.domains = manager.domains :=
  ⟨rfl, rfl⟩

/-- C24: after `AddBackend` and after `RemoveBackend` the workers are the
workers registered before, each with one more `Update`, of the manager's
resulting map, so that the map last passed to every registered worker, however
it was registered, is the resulting map; `Register(worker, true)` appends the
worker after passing it the manager's current map, `Register(worker, false)`
appends it as it is, and neither changes the map. -/
theorem C24_workers_updated (manager : workerManager) (domains : List String) (ch : Nat)
    (worker : UpdatableWorker) :
    ((manager.AddBackend domains ch).workers
        = manager.workers.map (fun wrk => wrk.Update (manager.AddBackend domains ch).domains) ∧
      ∀ wrk ∈ (manager.AddBackend domains ch).workers,
        wrk.updates.head? = some (manager.AddBackend domains ch).domains) ∧
    ((manager.RemoveBackend domains).workers
        = manager.workers.map (fun wrk => wrk.Update (manager.RemoveBackend domains).domains) ∧
      ∀ wrk ∈ (manager.RemoveBackend domains).workers,
        wrk.updates.head? = some (manager.RemoveBackend domains).domains) ∧
    ((manager.Register worker true).workers
        = manager.workers ++ [worker.Update manager.domains] ∧
      (worker.Update manager.domains).updates = manager.domains :: worker.updates ∧
      (manager.Register worker true).domains = manager.domains) ∧
    ((manager.Register worker false).workers = manager.workers ++ [worker] ∧
      (manager.Register worker false).domains = manager.domains) ∧
    (∀ update, ∀ wrk ∈ ((manager.Register worker update).AddBackend domains ch).workers,
      wrk.updates.head? = some ((manager.Register worker update).AddBackend domains ch).domains) := by
  have hadd : ∀ m : workerManager, ∀ wrk ∈ (m.AddBackend domains ch).workers,
      wrk.updates.head? = some (m.AddBackend domains ch).domains := by
    intro m wrk hw
    unfold workerManager.AddBackend at hw ⊢
    rw [(update_workers _).1, List.mem_map] at hw
    obtain ⟨w0, _, rfl⟩ := hw
    rfl
  have hrem : ∀ wrk ∈ (manager.RemoveBackend domains).workers,
      wrk.updates.head? = some (manager.RemoveBackend domains).domains := by
    intro wrk hw
    unfold workerManager.RemoveBackend at hw ⊢
    rw [(update_workers _).1, List.mem_map] at hw
    obtain ⟨w0, _, rfl⟩ := hw
    rfl
  exact ⟨⟨rfl, hadd manager⟩, ⟨rfl, hrem⟩, ⟨rfl, rfl, rfl⟩, ⟨rfl, rfl⟩,
    fun update => hadd (manager.Register worker update)⟩

/-- C24 (witness): a backend is added to `sampleManager`, whose first worker
was registered without update and whose second with. -/
theorem C24_workers_updated_witness :
    ((sampleManager.AddBackend ["new.example"] 9).workers
        = sampleManager.workers.map
            (fun wrk => wrk.Update (sampleManager.AddBackend ["new.example"] 9).domains)) ∧
      ((sampleManager.Register NewWorker false).workers = sampleManager.workers ++ [NewWorker]) :=
  ⟨(C24_workers_updated sampleManager ["new.example"] 9 NewWorker).1.1,
    (C24_workers_updated sampleManager ["new.example"] 9 NewWorker).2.2.2.1.1⟩

/-! ## Theorems: durations and the name of a backend config -/

theorem fillWorkerConfig_fields (env : ConfigEnv) (cfg : ServerConfig)
    (workerCfg : BackendWorkerConfig) :
    (fillWorkerConfig env cfg workerCfg).Name = workerCfg.Name ∧
    (fillWorkerConfig env cfg workerCfg).StateUpdateCooldown
      = (env.ParseDuration cfg.StateUpdateCooldown).getD Second ∧
    (fillWorkerConfig env cfg workerCfg).DialTimeout
      = (env.ParseDuration cfg.DialTimeout).getD Second ∧
    (cfg.CacheStatus = true →
      (fillWorkerConfig env cfg workerCfg).CacheStatus = true ∧
      (fillWorkerConfig env cfg workerCfg).CacheUpdateCooldown
        = (env.ParseDuration cfg.CacheUpdateCooldown).getD Second ∧
      (fillWorkerConfig env cfg workerCfg).ValidProtocol = cfg.ValidProtocol) ∧
    (cfg.CacheStatus = false →
      (fillWorkerConfig env cfg workerCfg).CacheStatus = workerCfg.CacheStatus ∧
      (fillWorkerConfig env cfg workerCfg).CacheUpdateCooldown = workerCfg.CacheUpdateCooldown ∧
      (fillWorkerConfig env cfg workerCfg).ValidProtocol = workerCfg.ValidProtocol) ∧
    (cfg.RateLimit > 0 →
      (fillWorkerConfig env cfg workerCfg).RateLimitDuration
        = (env.ParseDuration cfg.RateDuration).getD Second ∧
      (fillWorkerConfig env cfg workerCfg).RateBanListCooldown
        = (env.ParseDuration cfg.RateBanListCooldown).getD (15 * (60 * Second)) ∧
      (fillWorkerConfig env cfg workerCfg).RateDisconPk
        = env.MarshalStringDisconnect cfg.RateDisconMsg) ∧
    (cfg.RateLimit ≤ 0 →
      (fillWorkerConfig env cfg workerCfg).RateLimitDuration = workerCfg.RateLimitDuration ∧
      (fillWorkerConfig env cfg workerCfg).RateBanListCooldown = workerCfg.RateBanListCooldown ∧
      (fillWorkerConfig env cfg workerCfg).RateDisconPk = workerCfg.RateDisconPk) := by
  unfold fillWorkerConfig
  dsimp only
  refine ⟨?_, ?_, ?_, ?_, ?_, ?_, ?_⟩
  · split_ifs <;> rfl
  · split_ifs <;> rfl
  · split_ifs <;> rfl
  · intro hc
    simp only [hc, if_true]
    split_ifs <;> exact ⟨rfl, rfl, rfl⟩
  · intro hc
    simp only [hc, Bool.false_eq_true, if_false]
    split_ifs <;> exact ⟨rfl, rfl, rfl⟩
  · intro hr
    rw [if_pos hr]
    exact ⟨rfl, rfl, rfl⟩
  · intro hr
    rw [if_neg (not_lt.mpr hr)]
    split_ifs <;> exact ⟨rfl, rfl, rfl⟩

/-- A config returned without error is `fillWorkerConfig` of a config whose
name is the backend's name and whose status cache and rate limit fields hold
their zero values. -/
theorem ServerToBackendConfig_ok_base (env : ConfigEnv) (cfg : ServerConfig)
    (w : BackendWorkerConfig) (hok : ServerToBackendConfig env cfg = Except.ok w) :
    ∃ base : BackendWorkerConfig, w = fillWorkerConfig env cfg base ∧
      backendName cfg = Except.ok base.Name ∧
      base.CacheStatus = false ∧ base.CacheUpdateCooldown = 0 ∧ base.ValidProtocol = 0 ∧
      base.RateLimitDuration = 0 ∧ base.RateBanListCooldown = 0 ∧
      base.RateDisconPk = ⟨0, []⟩ := by
  unfold ServerToBackendConfig at hok
  cases hname : backendName cfg with
  | error f => rw [hname] at hok; exact Except.noConfusion hok
  | ok name =>
    rw [hname] at hok
    dsimp only at hok
    by_cases hnew : cfg.NewRealIP = true
    · rw [if_pos hnew] at hok
      cases hkey : loadRealIPKey env cfg with
      | error f => rw [hkey] at hok; exact Except.noConfusion hok
      | ok privateKey =>
        rw [hkey] at hok
        simp only [Except.ok.injEq] at hok
        exact ⟨_, hok.symm, rfl, rfl, rfl, rfl, rfl, rfl, rfl⟩
    · rw [if_neg hnew] at hok
      simp only [Except.ok.injEq] at hok
      exact ⟨_, hok.symm, rfl, rfl, rfl, rfl, rfl, rfl, rfl⟩

/-- Whether `ServerToBackendConfig` fails does not depend on how durations
parse. -/
theorem ServerToBackendConfig_ok_any_parse (env : ConfigEnv) (cfg : ServerConfig)
    (w : BackendWorkerConfig) (hok : ServerToBackendConfig env cfg = Except.ok w)
    (parse : String → Option Int) :
    ∃ w', ServerToBackendConfig { env with ParseDuration := parse } cfg = Except.ok w' := by
  have hkeyeq : loadRealIPKey { env with ParseDuration := parse } cfg = loadRealIPKey env cfg :=
    rfl
  unfold ServerToBackendConfig at hok ⊢
  cases hname : backendName cfg with
  | error f => rw [hname] at hok; exact Except.noConfusion hok
  | ok name =>
    rw [hname] at hok
    dsimp only at hok ⊢
    by_cases hnew : cfg.NewRealIP = true
    · rw [if_pos hnew] at hok ⊢
      rw [hkeyeq]
      cases hkey : loadRealIPKey env cfg with
      | error f => rw [hkey] at hok; exact Except.noConfusion hok
      | ok privateKey => exact ⟨_, rfl⟩
    · rw [if_neg hnew]
      exact ⟨_, rfl⟩

/-- C25: a config that `ServerToBackendConfig` returns is returned whatever
`time.ParseDuration` makes of the duration strings; in it
`StateUpdateCooldown` and `DialTimeout`, `CacheUpdateCooldown` when
`cacheStatus` is set, and `RateLimitDuration` when `rateLimit > 0` are the
parsed value, or one second when the string does not parse, and
`RateBanListCooldown` when `rateLimit > 0` is the parsed value, or fifteen
minutes; with `cacheStatus` false the result has `CacheStatus = false` and
zero `CacheUpdateCooldown` and `ValidProtocol`; with `rateLimit <= 0` the rate
duration, the ban cooldown and the rate disconnect packet are zero. -/
theorem C25_durations_default (env : ConfigEnv) (cfg : ServerConfig) (w : BackendWorkerConfig)
    (hok : ServerToBackendConfig env cfg = Except.ok w) :
    (∀ parse : String → Option Int,
      ∃ w', ServerToBackendConfig { env with ParseDuration := parse } cfg = Except.ok w') ∧
    w.StateUpdateCooldown = (env.ParseDuration cfg.StateUpdateCooldown).getD Second ∧
    w.DialTimeout = (env.ParseDuration cfg.DialTimeout).getD Second ∧
    (cfg.CacheStatus = true →
      w.CacheStatus = true ∧
      w.CacheUpdateCooldown = (env.ParseDuration cfg.CacheUpdateCooldown).getD Second ∧
      w.ValidProtocol = cfg.ValidProtocol) ∧
    (cfg.CacheStatus = false →
      w.CacheStatus = false ∧ w.CacheUpdateCooldown = 0 ∧ w.ValidProtocol = 0) ∧
    (cfg.RateLimit > 0 →
      w.RateLimitDuration = (env.ParseDuration cfg.RateDuration).getD Second ∧
      w.RateBanListCooldown
        = (env.ParseDuration cfg.RateBanListCooldown).getD (15 * (60 * Second))) ∧
    (cfg.RateLimit ≤ 0 →
      w.RateLimitDuration = 0 ∧ w.RateBanListCooldown = 0 ∧ w.RateDisconPk = ⟨0, []⟩) := by
  obtain ⟨base, hw, _, hb1, hb2, hb3, hb4, hb5, hb6⟩ :=
    ServerToBackendConfig_ok_base env cfg w hok
  obtain ⟨_, f1, f2, f3, f4, f5, f6⟩ := fillWorkerConfig_fields env cfg base
  subst hw
  refine ⟨fun parse => ServerToBackendConfig_ok_any_parse env cfg _ hok parse,
    f1, f2, f3, ?_, ?_, ?_⟩
  · intro hc
    obtain ⟨g1, g2, g3⟩ := f4 hc
    exact ⟨g1.trans hb1, g2.trans hb2, g3.trans hb3⟩
  · intro hr
    exact ⟨(f5 hr).1, (f5 hr).2.1⟩
  · intro hr
    obtain ⟨g1, g2, g3⟩ := f6 hr
    exact ⟨g1.trans hb4, g2.trans hb5, g3.trans hb6⟩

/-- C25 (witness): `plainConfig`, whose "5s" and "1m" parse and whose "1s" and
"5m" do not: the state cooldown is five seconds, the dial timeout one second,
the cache cooldown one minute, the rate duration one second and the ban
cooldown fifteen minutes. -/
theorem C25_durations_default_witness :
    plainWorker.StateUpdateCooldown = (some (5 * Second)).getD Second ∧
      plainWorker.DialTimeout = (none : Option Int).getD Second ∧
      (plainWorker.CacheStatus = true ∧
        plainWorker.CacheUpdateCooldown = (some (60 * Second)).getD Second ∧
        plainWorker.ValidProtocol = 755) ∧
      (plainWorker.RateLimitDuration = (none : Option Int).getD Second ∧
        plainWorker.RateBanListCooldown = (none : Option Int).getD (15 * (60 * Second))) :=
  ⟨(C25_durations_default parsingEnv plainConfig plainWorker rfl).2.1,
    (C25_durations_default parsingEnv plainConfig plainWorker rfl).2.2.1,
    (C25_durations_default parsingEnv plainConfig plainWorker rfl).2.2.2.1 rfl,
    (C25_durations_default parsingEnv plainConfig plainWorker rfl).2.2.2.2.2.1 (by decide)⟩

/-- Without `NewRealIP`, `ServerToBackendConfig` is the name of the backend
followed by `fillWorkerConfig`. -/
theorem ServerToBackendConfig_without_RealIP (env : ConfigEnv) (cfg : ServerConfig)
    (hnew : cfg.NewRealIP = false) :
    (∀ name, backendName cfg = Except.ok name →
      ∃ w, ServerToBackendConfig env cfg = Except.ok w ∧ w.Name = name) ∧
    (∀ f, backendName cfg = Except.error f → ServerToBackendConfig env cfg = Except.error f) := by
  refine ⟨?_, ?_⟩
  · intro name hname
    unfold ServerToBackendConfig
    rw [hname]
    dsimp only
    rw [hnew]
    simp only [Bool.false_eq_true, if_false]
    exact ⟨_, rfl, (fillWorkerConfig_fields env cfg _).1⟩
  · intro f hname
    unfold ServerToBackendConfig
    rw [hname]

/-- C26: for a config with `NewRealIP = false`: with a non-empty `Domains`
list `ServerToBackendConfig` returns a config, without error or panic, whose
`Name` is `cfg.Name` when that is non-empty and `Domains[0]` otherwise; with a
non-empty `Name` it does so whatever `Domains` is, the index not being
evaluated; it never returns an error; and it panics, on the index out of
range, exactly when both `Name` and `Domains` are empty. -/
theorem C26_name_and_index (env : ConfigEnv) (cfg : ServerConfig)
    (hnew : cfg.NewRealIP = false) :
    (∀ domain rest, cfg.Domains = domain :: rest →
      ∃ w, ServerToBackendConfig env cfg = Except.ok w ∧
        w.Name = if cfg.Name = "" then domain else cfg.Name) ∧
    (cfg.Name ≠ "" → ∃ w, ServerToBackendConfig env cfg = Except.ok w ∧ w.Name = cfg.Name) ∧
    (∀ err, ServerToBackendConfig env cfg ≠ Except.error (Failure.error err)) ∧
    (ServerToBackendConfig env cfg = Except.error Failure.panic ↔
      (cfg.Name = "" ∧ cfg.Domains = [])) := by
  obtain ⟨hokname, herrname⟩ := ServerToBackendConfig_without_RealIP env cfg hnew
  have hnamed : cfg.Name ≠ "" → backendName cfg = Except.ok cfg.Name := by
    intro h
    unfold backendName
    rw [if_neg h]
  have hfirst : ∀ domain rest, cfg.Domains = domain :: rest →
      backendName cfg = Except.ok (if cfg.Name = "" then domain else cfg.Name) := by
    intro domain rest hd
    unfold backendName
    rw [hd]
    split_ifs <;> rfl
  have hempty : cfg.Name = "" → cfg.Domains = [] →
      backendName cfg = Except.error Failure.panic := by
    intro h hd
    unfold backendName
    rw [if_pos h, hd]
  refine ⟨?_, ?_, ?_, ?_⟩
  · intro domain rest hd
    exact hokname _ (hfirst domain rest hd)
  · intro h
    exact hokname _ (hnamed h)
  · intro err herr
    by_cases h : cfg.Name = ""
    · cases hd : cfg.Domains with
      | nil =>
        rw [herrname _ (hempty h hd)] at herr
        simp at herr
      | cons domain rest =>
        obtain ⟨w, hw, _⟩ := hokname _ (hfirst domain rest hd)
        rw [hw] at herr
        exact Except.noConfusion herr
    · obtain ⟨w, hw, _⟩ := hokname _ (hnamed h)
      rw [hw] at herr
      exact Except.noConfusion herr
  · constructor
    · intro hp
      by_cases h : cfg.Name = ""
      · cases hd : cfg.Domains with
        | nil => exact ⟨h, rfl⟩
        | cons domain rest =>
          obtain ⟨w, hw, _⟩ := hokname _ (hfirst domain rest hd)
          rw [hw] at hp
          exact Except.noConfusion hp
      · obtain ⟨w, hw, _⟩ := hokname _ (hnamed h)
        rw [hw] at hp
        exact Except.noConfusion hp
    · intro ⟨h, hd⟩
      exact herrname _ (hempty h hd)

/-- C26 (witness): `plainConfig`, without a name, takes the name of its first
domain. -/
theorem C26_name_and_index_witness :
    ∃ w, ServerToBackendConfig parsingEnv plainConfig = Except.ok w ∧
      w.Name = if plainConfig.Name = "" then "example.local" else plainConfig.Name :=
  (C26_name_and_index parsingEnv plainConfig rfl).1 "example.local" [] rfl

/-- With `NewRealIP` set the key lookup indexes `Domains[0]` too, whatever the
name: a named config with no domains, whose key file is missing, panics. -/
theorem ServerToBackendConfig_key_lookup_panics :
    ServerToBackendConfig brokenGeneratorEnv { missingKeyConfig with Domains := [] }
      = Except.error Failure.panic := by
  rfl

end Ultraviolet
